import Mathlib

/-!
# FIMC-IS hardware control and GPU cooling: a verification development

Shallow embedding of

* `drivers/media/platform/exynos/fimc-is2/hardware/fimc-is-hw-control.h`
  (state bits, macros, packed setfile headers, the structures of the
  hardware orchestrator),
* `drivers/thermal/gpu_cooling.c` (`get_property` and its wrappers, the
  cooling-device callbacks, the dynamic and static power tables), and
* `drivers/media/platform/exynos/fimc-is2/ischain/setup-fimc-is-preprocessor.c`
  (the clock wrappers of the preprocessor).

The functions that `fimc-is-hw-control.h` only declares are modelled from the
specification; every such definition says so in its documentation.
Machine integers are natural numbers or integers with the reduction modulo
`2 ^ w` written out where the C code can wrap.
-/

namespace FimcIs

/-! ## State bits of a hardware IP (`enum fimc_is_hw_state`) -/

/-- Bit number `HW_OPEN` of `enum fimc_is_hw_state`. -/
def HW_OPEN : Nat := 0

/-- Bit number `HW_INIT` of `enum fimc_is_hw_state`. -/
def HW_INIT : Nat := 1

/-- Bit number `HW_CONFIG` of `enum fimc_is_hw_state`. -/
def HW_CONFIG : Nat := 2

/-- Bit number `HW_RUN` of `enum fimc_is_hw_state`. -/
def HW_RUN : Nat := 3

/-- Bit number `HW_TUNESET` of `enum fimc_is_hw_state`. -/
def HW_TUNESET : Nat := 4

/-- Bit number `HW_VRA_CH1_START` of `enum fimc_is_hw_state`. -/
def HW_VRA_CH1_START : Nat := 5

/-- Number of state bits, `HW_END`. -/
def HW_END : Nat := 6

/-- Width of `ulong state` on the 64-bit target. -/
def BITS_PER_LONG : Nat := 64

/-- Kernel `set_bit(nr, &state)` on a 64-bit word: `state |= 1UL << nr`. -/
def set_bit (nr : Nat) (state : Nat) : Nat :=
  state ||| (1 <<< nr)

/-- Kernel `clear_bit(nr, &state)` on a 64-bit word: `state &= ~(1UL << nr)`;
the complement of `m` in 64 bits is `2 ^ 64 - (m + 1)`. -/
def clear_bit (nr : Nat) (state : Nat) : Nat :=
  state &&& (2 ^ BITS_PER_LONG - ((1 <<< nr) + 1))

/-- Kernel `test_bit(nr, &state)`. -/
def test_bit (nr : Nat) (state : Nat) : Bool :=
  state.testBit nr

/-- Error kinds of section 7 of the specification. -/
inductive HwError where
  | ResourceError
  | ConfigError
  | CorruptSetfile
  | ProtocolViolation
  | Timeout
  deriving DecidableEq, Repr

/-- The three events of the shot cycle of one hardware IP. -/
inductive HwEvent where
  | shot
  | frame_start
  | frame_end
  deriving DecidableEq, Repr

/-- Modelled from the spec: the bodies of `fimc_is_hardware_shot`,
`fimc_is_hardware_frame_start` and of the frame-end handler are not among the
sources (the header only declares them). The transitions follow the
documentation of `enum fimc_is_hw_state` in the header and sections 2 and 4.1
of the specification: `HW_CONFIG` is set at shot and cleared at frame start,
`HW_RUN` is set at frame start and cleared at frame end; the order
configure before run is enforced, so a frame start is accepted only for a
unit that is configured, and a frame start for a unit that is already running
is a protocol violation. A refused frame start is reported as
`ProtocolViolation` and leaves the state as it is. The result is the outcome
of the event and the state after it. -/
def hw_event (state : Nat) : HwEvent → Except HwError Unit × Nat
  | .shot => (.ok (), set_bit HW_CONFIG state)
  | .frame_start =>
    if test_bit HW_CONFIG state = true ∧ test_bit HW_RUN state = false then
      (.ok (), set_bit HW_RUN (clear_bit HW_CONFIG state))
    else (.error .ProtocolViolation, state)
  | .frame_end => (.ok (), clear_bit HW_RUN state)

/-- State of the unit after one event. -/
def hw_state_step (state : Nat) (event : HwEvent) : Nat :=
  (hw_event state event).2

/-- State of the unit after a sequence of events, oldest first. -/
def hw_state_after (state : Nat) (events : List HwEvent) : Nat :=
  events.foldl hw_state_step state

/-! ## Error kinds, frames and the frame queue -/

/-- Constant `FIMC_IS_MAX_HW_FRAME`. -/
def FIMC_IS_MAX_HW_FRAME : Nat := 20

/-- Constant `FIMC_IS_MAX_HW_FRAME_LATE`. -/
def FIMC_IS_MAX_HW_FRAME_LATE : Nat := 5

/-- Modelled from the spec: `struct fimc_is_frame` is declared in
`fimc-is-framemgr.h`, which is not among the sources. A frame descriptor
carries its frame number and the parameter update indices (section 3). -/
structure fimc_is_frame where
  fcount : Nat
  lindex : Nat
  hindex : Nat
  deriving DecidableEq, Repr

/-- The two frame managers that `struct fimc_is_hardware` keeps for one group:
`framemgr` (the normal queue) and `framemgr_late` (the overflow queue), oldest
frame first. -/
structure FrameQueue where
  framemgr : List fimc_is_frame
  framemgr_late : List fimc_is_frame
  deriving DecidableEq, Repr

/-- Where an accepted frame was put. -/
inductive EnqueueTarget where
  | normal
  | late
  deriving DecidableEq, Repr

/-- Modelled from the spec: the enqueue path of `fimc_is_hardware_shot` is not
among the sources. Section 4.2: the frame is appended to the tail of the normal
queue if it holds fewer than `MAX_HW_FRAME` frames; otherwise it is routed to
the late queue, which takes up to `MAX_HW_FRAME_LATE` frames; queue exhaustion
is a `ResourceError` (section 7). -/
def frame_enqueue (q : FrameQueue) (frame : fimc_is_frame) :
    Except HwError EnqueueTarget × FrameQueue :=
  if q.framemgr.length < FIMC_IS_MAX_HW_FRAME then
    (.ok .normal, { q with framemgr := q.framemgr ++ [frame] })
  else if q.framemgr_late.length < FIMC_IS_MAX_HW_FRAME_LATE then
    (.ok .late, { q with framemgr_late := q.framemgr_late ++ [frame] })
  else
    (.error .ResourceError, q)

/-- Modelled from the spec: the bodies of `fimc_is_hardware_frame_done` and
`fimc_is_hardware_shot_done` are not among the sources. Section 4.2:
dequeue-on-done removes the head when its frame number is the completing one;
a head with another number is an ordering violation and the queue is left as
it is. With nothing queued no head matches, which is reported the same way. -/
def frame_dequeue_on_done (queue : List fimc_is_frame) (fcount : Nat) :
    Except HwError fimc_is_frame × List fimc_is_frame :=
  match queue with
  | [] => (.error .ProtocolViolation, [])
  | head :: rest =>
    if head.fcount = fcount then (.ok head, rest)
    else (.error .ProtocolViolation, head :: rest)

/-! ## Setfile store of one hardware IP -/

/-- Constant `FIMC_IS_MAX_SCENARIO`. -/
def FIMC_IS_MAX_SCENARIO : Nat := 64

/-- Constant `FIMC_IS_MAX_SETFILE`. -/
def FIMC_IS_MAX_SETFILE : Nat := 64

/-- Structure `struct setfile_table_entry`. -/
structure setfile_table_entry where
  addr : Nat
  size : Nat
  deriving DecidableEq, Repr

/-- Structure `struct fimc_is_hw_ip_setfile`; `index` and `table` are the arrays of
`FIMC_IS_MAX_SCENARIO` and `FIMC_IS_MAX_SETFILE` elements. -/
structure fimc_is_hw_ip_setfile where
  version : Int
  applied_scenario : Nat
  using_count : Nat
  index : List Nat
  table : List setfile_table_entry
  deriving DecidableEq, Repr

/-- Modelled from the spec: the `apply_setfile` operation behind
`fimc_is_hardware_apply_setfile` is not among the sources. Sections 4.1 and
4.3: a scenario at or beyond `num_scenarios` is a `ConfigError`; otherwise
`index[scenario]` is looked up and bounds-checked against `using_count`,
`table[index]` is resolved and handed to the register-programming operation
`program` of the unit, and on success `applied_scenario` is marked. Every
failure leaves the store as it was. -/
def apply_setfile (num_scenarios : Nat)
    (program : setfile_table_entry → Except HwError Unit)
    (setfile : fimc_is_hw_ip_setfile) (scenario : Nat) :
    Except HwError Unit × fimc_is_hw_ip_setfile :=
  if num_scenarios ≤ scenario then (.error .ConfigError, setfile)
  else
    match setfile.index.get? scenario with
    | none => (.error .ConfigError, setfile)
    | some idx =>
      if setfile.using_count ≤ idx then (.error .ConfigError, setfile)
      else
        match setfile.table.get? idx with
        | none => (.error .ConfigError, setfile)
        | some entry =>
          match program entry with
          | .error e => (.error e, setfile)
          | .ok _ => (.ok (), { setfile with applied_scenario := scenario })

/-! ## Clock gate -/

/-- The memory-mapped gate register behind `clk_gate->regs`: its 32-bit value
and the values stored to it by `__raw_writel`, oldest first. -/
structure GateReg where
  value : Nat
  written : List Nat
  deriving DecidableEq, Repr

/-- The accessor `__raw_readl(addr)`. -/
def __raw_readl (addr : GateReg) : Nat :=
  addr.value

/-- The accessor `__raw_writel(v, addr)`, a 32-bit store. -/
def __raw_writel (v : Nat) (addr : GateReg) : GateReg :=
  { value := v % 2 ^ 32, written := addr.written ++ [v % 2 ^ 32] }

/-- Macro `FIMC_IS_CLOCK_ON(addr, bit)`:
`__raw_writel(__raw_readl(addr) | (1 << bit), addr)`, for a `bit` below 32. -/
def FIMC_IS_CLOCK_ON (addr : GateReg) (bit : Nat) : GateReg :=
  __raw_writel (__raw_readl addr ||| (1 <<< bit)) addr

/-- Macro `FIMC_IS_CLOCK_OFF(addr, bit)`:
`__raw_writel(__raw_readl(addr) & ~(1 << bit), addr)`, for a `bit` below 32;
the complement of `m` in 32 bits is `2 ^ 32 - (m + 1)`. -/
def FIMC_IS_CLOCK_OFF (addr : GateReg) (bit : Nat) : GateReg :=
  __raw_writel (__raw_readl addr &&& (2 ^ 32 - ((1 <<< bit) + 1))) addr

/-- Structure `struct fimc_is_clk_gate` without its spinlock: the gate register
and, per slot, the gate bit and the reference count (`int refcnt[HW_SLOT_MAX]`,
an integer here). -/
structure fimc_is_clk_gate where
  regs : GateReg
  bit : Nat → Nat
  refcnt : Nat → Int

/-- Modelled from the spec: the body of `fimc_is_hardware_clk_gate` is not
among the sources. Section 4.1: an `on` call increments and an off call
decrements the reference count of the slot `idx` (`hw_ip->clk_gate_idx`),
`gate_on` being the argument `on`; the gate is enabled on the 0 → 1 edge and
disabled on the edge back to 0. The specification does not say what the
`close` flag does, so the model covers the calls with `close` false; the
spinlock serialises the calls. -/
def fimc_is_hardware_clk_gate (clk_gate : fimc_is_clk_gate) (idx : Nat) (gate_on : Bool) :
    fimc_is_clk_gate :=
  if gate_on then
    let cnt := clk_gate.refcnt idx + 1
    { clk_gate with
      refcnt := Function.update clk_gate.refcnt idx cnt
      regs := if cnt = 1 then FIMC_IS_CLOCK_ON clk_gate.regs (clk_gate.bit idx)
              else clk_gate.regs }
  else
    let cnt := clk_gate.refcnt idx - 1
    { clk_gate with
      refcnt := Function.update clk_gate.refcnt idx cnt
      regs := if cnt = 0 then FIMC_IS_CLOCK_OFF clk_gate.regs (clk_gate.bit idx)
              else clk_gate.regs }

/-- The gate after a sequence of calls for the slot `idx`, oldest first. -/
def clk_gate_after (clk_gate : fimc_is_clk_gate) (idx : Nat) (calls : List Bool) :
    fimc_is_clk_gate :=
  calls.foldl (fun g gate_on => fimc_is_hardware_clk_gate g idx gate_on) clk_gate

/-! ## The capability table and `CALL_HW_OPS` -/

/-- The slots of `struct fimc_is_hw_ip_ops`. -/
inductive HwOp where
  | open_
  | init
  | deinit
  | close
  | enable
  | disable
  | shot
  | set_param
  | get_meta
  | frame_ndone
  | load_setfile
  | apply_setfile
  | delete_setfile
  | size_dump
  | clk_gate
  deriving DecidableEq, Repr

/-- An operation of a hardware IP: it receives the unit `hw`, the argument
words of the call and the driver state, and yields its `int` result and the
state it leaves. The two `void` slots (`size_dump`, `clk_gate`) have no result
in C; their result component is not used. -/
abbrev HwOpFn (H W : Type) : Type :=
  H → List Nat → W → Int × W

/-- Structure `struct fimc_is_hw_ip_ops`: a table of function pointers, each of which may
be null (`none`). -/
structure fimc_is_hw_ip_ops (H W : Type) where
  open_ : Option (HwOpFn H W)
  init : Option (HwOpFn H W)
  deinit : Option (HwOpFn H W)
  close : Option (HwOpFn H W)
  enable : Option (HwOpFn H W)
  disable : Option (HwOpFn H W)
  shot : Option (HwOpFn H W)
  set_param : Option (HwOpFn H W)
  get_meta : Option (HwOpFn H W)
  frame_ndone : Option (HwOpFn H W)
  load_setfile : Option (HwOpFn H W)
  apply_setfile : Option (HwOpFn H W)
  delete_setfile : Option (HwOpFn H W)
  size_dump : Option (HwOpFn H W)
  clk_gate : Option (HwOpFn H W)

/-- The member `ops->op` of the table. -/
def fimc_is_hw_ip_ops.slot {H W : Type} (ops : fimc_is_hw_ip_ops H W) :
    HwOp → Option (HwOpFn H W)
  | .open_ => ops.open_
  | .init => ops.init
  | .deinit => ops.deinit
  | .close => ops.close
  | .enable => ops.enable
  | .disable => ops.disable
  | .shot => ops.shot
  | .set_param => ops.set_param
  | .get_meta => ops.get_meta
  | .frame_ndone => ops.frame_ndone
  | .load_setfile => ops.load_setfile
  | .apply_setfile => ops.apply_setfile
  | .delete_setfile => ops.delete_setfile
  | .size_dump => ops.size_dump
  | .clk_gate => ops.clk_gate

/-- Macro `CALL_HW_OPS(hw, op, args...)`:
`((hw)->ops->op) ? ((hw)->ops->op(hw, args)) : 0`, with `ops` the table
`hw->ops`. -/
def CALL_HW_OPS {H W : Type} (ops : fimc_is_hw_ip_ops H W) (hw : H) (op : HwOp)
    (args : List Nat) (w : W) : Int × W :=
  match ops.slot op with
  | some f => f hw args w
  | none => (0, w)

/-! ## The bug counter -/

/-- Value of an integer as a 32-bit `int` (two's complement wrap-around). -/
def wrap_int (x : Int) : Int :=
  (x + 2 ^ 31) % 2 ^ 32 - 2 ^ 31

/-- Kernel `atomic_inc_return(v)` on an `atomic_t`: the incremented 32-bit value. -/
def atomic_inc_return (v : Int) : Int :=
  wrap_int (v + 1)

/-- The counters of `struct fimc_is_hardware` (each an `atomic_t`). -/
structure fimc_is_hardware where
  rsccount : Int
  bug_count : Int
  log_count : Int
  deriving DecidableEq, Repr

/-- Macro `check_hw_bug_count(this, count)`:
`if (atomic_inc_return(&this->bug_count) > count) BUG_ON(1)`. The result is
the orchestrator after the increment and whether `BUG_ON(1)` is reached. -/
def check_hw_bug_count (this : fimc_is_hardware) (count : Int) :
    fimc_is_hardware × Bool :=
  let v := atomic_inc_return this.bug_count
  ({ this with bug_count := v }, decide (v > count))

/-- The orchestrator after `n` invocations of `check_hw_bug_count`. -/
def bug_count_after (this : fimc_is_hardware) (count : Int) : Nat → fimc_is_hardware
  | 0 => this
  | n + 1 => (check_hw_bug_count (bug_count_after this count n) count).1

/-! ## File-mapped setfile header -/

/-- Constant `SET_FILE_MAGIC_NUMBER`. -/
def SET_FILE_MAGIC_NUMBER : Nat := 0x12345679

/-- Constant `SETFILE_V2` of `enum fimc_is_setfile_type`. -/
def SETFILE_V2 : Nat := 2

/-- Constant `SETFILE_V3` of `enum fimc_is_setfile_type`. -/
def SETFILE_V3 : Nat := 3

/-- Member names of the setfile header structures. -/
inductive SetfileField where
  | magic_number
  | designed_bit
  | version_code
  | revision_code
  | scenario_num
  | subip_num
  | setfile_offset
  deriving DecidableEq, Repr

/-- Member types that occur in the setfile header structures. -/
inductive CType where
  | u32
  | chars (n : Nat)
  deriving DecidableEq, Repr

/-- Size in bytes, `sizeof`, of a member type. -/
def CType.size : CType → Nat
  | .u32 => 4
  | .chars n => n

/-- One member declaration of a structure. -/
structure FieldDecl where
  name : SetfileField
  type : CType
  deriving DecidableEq, Repr

/-- Structure `struct __setfile_header_ver_2`, member by member. -/
def __setfile_header_ver_2 : List FieldDecl :=
  [⟨.magic_number, .u32⟩, ⟨.scenario_num, .u32⟩, ⟨.subip_num, .u32⟩,
   ⟨.setfile_offset, .u32⟩]

/-- Structure `struct __setfile_header_ver_3`, member by member. -/
def __setfile_header_ver_3 : List FieldDecl :=
  [⟨.magic_number, .u32⟩, ⟨.designed_bit, .u32⟩, ⟨.version_code, .chars 4⟩,
   ⟨.revision_code, .chars 4⟩, ⟨.scenario_num, .u32⟩, ⟨.subip_num, .u32⟩,
   ⟨.setfile_offset, .u32⟩]

/-- Size `sizeof` of a structure declared `__attribute__((__packed__))`: the members
follow each other without padding. -/
def packed_sizeof (fields : List FieldDecl) : Nat :=
  (fields.map (fun f => f.type.size)).sum

/-- Offset `offsetof` in a packed structure: the sizes of the members declared before
the named one. -/
def packed_offsetof : List FieldDecl → SetfileField → Option Nat
  | [], _ => none
  | f :: rest, name =>
    if f.name = name then some 0
    else (packed_offsetof rest name).map (fun off => off + f.type.size)

/-- Members of `union __setfile_header`: the bare magic number and the two
versioned headers, all at offset 0. -/
def __setfile_header : List (List FieldDecl) :=
  [[⟨.magic_number, .u32⟩], __setfile_header_ver_2, __setfile_header_ver_3]

/-- Little-endian 32-bit word at byte offset `off` of a blob of bytes, if the
blob has those four bytes. -/
def read_u32 (blob : List Nat) (off : Nat) : Option Nat :=
  match blob.drop off with
  | b0 :: b1 :: b2 :: b3 :: _ => some (b0 + 256 * b1 + 65536 * b2 + 16777216 * b3)
  | _ => none

/-- The `n` bytes at byte offset `off` of a blob, if the blob has them. -/
def read_chars (blob : List Nat) (off n : Nat) : Option (List Nat) :=
  if off + n ≤ blob.length then some ((blob.drop off).take n) else none

/-- A `u32` member of a packed header read from the blob. -/
def read_member (fields : List FieldDecl) (blob : List Nat) (name : SetfileField) :
    Option Nat :=
  (packed_offsetof fields name).bind (fun off => read_u32 blob off)

/-- A `char` array member of `n` bytes of a packed header read from the blob. -/
def read_chars_member (fields : List FieldDecl) (blob : List Nat) (name : SetfileField)
    (n : Nat) : Option (List Nat) :=
  (packed_offsetof fields name).bind (fun off => read_chars blob off n)

/-- Structure `struct fimc_is_setfile_header`, the processed header; the two codes are
the four characters of the file followed by a terminating 0. -/
structure fimc_is_setfile_header where
  version : Nat
  num_ips : Nat
  num_scenarios : Nat
  scenario_table_base : Nat
  num_setfile_base : Nat
  setfile_table_base : Nat
  setfile_entries_base : Nat
  designed_bits : Nat
  version_code : List Nat
  revision_code : List Nat
  deriving DecidableEq, Repr

/-- The `*_base` members of the processed header for a blob mapped at `addr`
whose header takes `hdr_size` bytes: the scenario table follows the header, the
per-IP setfile counts follow it, the setfile table follows those (the order of
the member comments of `struct fimc_is_setfile_header`, 32-bit entries), and
the entries start `setfile_offset` bytes into the blob. Addresses are `ulong`. -/
def setfile_bases (version addr hdr_size num_scenarios num_ips setfile_offset : Nat)
    (designed_bits : Nat) (version_code revision_code : List Nat) :
    fimc_is_setfile_header :=
  let scenario_table_base := (addr + hdr_size) % 2 ^ 64
  let num_setfile_base := (scenario_table_base + num_ips * num_scenarios * 4) % 2 ^ 64
  { version := version
    num_ips := num_ips
    num_scenarios := num_scenarios
    scenario_table_base := scenario_table_base
    num_setfile_base := num_setfile_base
    setfile_table_base := (num_setfile_base + num_ips * 4) % 2 ^ 64
    setfile_entries_base := (addr + setfile_offset) % 2 ^ 64
    designed_bits := designed_bits
    version_code := version_code
    revision_code := revision_code }

/-- Modelled from the spec: the header parser behind
`fimc_is_hardware_load_setfile` is not among the sources. Section 4.3: the
`magic_number` of the union header is read; the version-2 constant selects the
version-2 header, the version-3 constant the extended header, and any other
magic is a `CorruptSetfile` error. The header gives one magic constant
(`SET_FILE_MAGIC_NUMBER`); the two constants the parser compares with are the
parameters `magic_v2` and `magic_v3`. A blob too short for its header is
corrupt as well (section 6: every field is bounds-checked). -/
def parse_setfile_header (magic_v2 magic_v3 : Nat) (addr : Nat) (blob : List Nat) :
    Except HwError fimc_is_setfile_header :=
  match read_u32 blob 0 with
  | none => .error .CorruptSetfile
  | some magic =>
    if magic = magic_v2 then
      match read_member __setfile_header_ver_2 blob .scenario_num,
            read_member __setfile_header_ver_2 blob .subip_num,
            read_member __setfile_header_ver_2 blob .setfile_offset with
      | some scenario_num, some subip_num, some setfile_offset =>
        .ok (setfile_bases SETFILE_V2 addr (packed_sizeof __setfile_header_ver_2)
              scenario_num subip_num setfile_offset 0 [] [])
      | _, _, _ => .error .CorruptSetfile
    else if magic = magic_v3 then
      match read_member __setfile_header_ver_3 blob .designed_bit,
            read_chars_member __setfile_header_ver_3 blob .version_code 4,
            read_chars_member __setfile_header_ver_3 blob .revision_code 4,
            read_member __setfile_header_ver_3 blob .scenario_num,
            read_member __setfile_header_ver_3 blob .subip_num,
            read_member __setfile_header_ver_3 blob .setfile_offset with
      | some designed_bit, some version_code, some revision_code,
        some scenario_num, some subip_num, some setfile_offset =>
        .ok (setfile_bases SETFILE_V3 addr (packed_sizeof __setfile_header_ver_3)
              scenario_num subip_num setfile_offset designed_bit
              (version_code ++ [0]) (revision_code ++ [0]))
      | _, _, _, _, _, _ => .error .CorruptSetfile
    else .error .CorruptSetfile

end FimcIs

namespace GpuCooling

/-! ## `drivers/thermal/gpu_cooling.c`: the frequency table -/

/-- Modelled from the spec: the specification does not describe this constant,
which `<linux/cpufreq.h>` (not among the sources) defines: `~0u`. -/
def CPUFREQ_ENTRY_INVALID : Nat := 2 ^ 32 - 1

/-- Modelled from the spec: the specification does not describe this constant,
which `<linux/cpufreq.h>` (not among the sources) defines: `~1u`. -/
def CPUFREQ_TABLE_END : Nat := 2 ^ 32 - 2

/-- Modelled from the spec: the specification does not describe this constant,
which `<linux/thermal.h>` (not among the sources) defines: `-1UL`. -/
def THERMAL_CSTATE_INVALID : Nat := 2 ^ 64 - 1

/-- Modelled from the spec: the specification does not describe this constant,
which `<uapi/asm-generic/errno-base.h>` (not among the sources) defines. -/
def EINVAL : Int := 22

/-- Structure `struct cpufreq_frequency_table`; `frequency` is an `unsigned int`. -/
structure cpufreq_frequency_table where
  flags : Nat
  driver_data : Nat
  frequency : Nat
  deriving DecidableEq, Repr

/-- Enumeration `enum gpufreq_cooling_property`. -/
inductive gpufreq_cooling_property where
  | GET_LEVEL
  | GET_FREQ
  | GET_MAXL
  deriving DecidableEq, Repr

/-- Modelled from the spec: the specification does not describe the macro
`cpufreq_for_each_valid_entry(pos, table)`, which `<linux/cpufreq.h>` (not among
the sources) defines. It walks the array up to the entry whose frequency is
`CPUFREQ_TABLE_END` and skips the entries whose frequency is
`CPUFREQ_ENTRY_INVALID`; this is the list of the frequencies it visits. The
list `table` holds the array; an array without end marker ends with the list. -/
def valid_entries : List cpufreq_frequency_table → List Nat
  | [] => []
  | pos :: rest =>
    if pos.frequency = CPUFREQ_TABLE_END then []
    else if pos.frequency = CPUFREQ_ENTRY_INVALID then valid_entries rest
    else pos.frequency :: valid_entries rest

/-- The locals `freq`, `descend` and `max_level` of `get_property` during its
first loop. -/
structure CountState where
  freq : Nat
  descend : Int
  max_level : Nat
  deriving DecidableEq, Repr

/-- First loop of `get_property` over the valid entries: duplicates of the
previous frequency are ignored, the order is taken from the first two distinct
frequencies, `max_level` counts the distinct runs. -/
def get_property_count : CountState → List Nat → CountState
  | st, [] => st
  | st, f :: rest =>
    if st.freq = f then get_property_count st rest
    else
      get_property_count
        { freq := f
          descend :=
            if st.freq ≠ CPUFREQ_ENTRY_INVALID ∧ st.descend = -1 then
              (if st.freq > f then 1 else 0)
            else st.descend
          max_level := st.max_level + 1 } rest

/-- Difference of two `unsigned long` values, modulo `2 ^ 64`. -/
def ulong_sub (a b : Nat) : Nat :=
  (a + 2 ^ 64 - b % 2 ^ 64) % 2 ^ 64

/-- Second loop of `get_property` over the valid entries, with the locals
`freq` and `i`; the result is the value stored to `*output` when the loop
returns 0, and `none` when the loop runs to the end. `(unsigned int)input` and
the stored value are reduced modulo `2 ^ 32`. -/
def get_property_find (property : gpufreq_cooling_property) (input : Nat)
    (descend : Int) (max_level level : Nat) : Nat → Nat → List Nat → Option Nat
  | _, _, [] => none
  | freq, i, f :: rest =>
    if freq = f then get_property_find property input descend max_level level freq i rest
    else if property = .GET_LEVEL ∧ input % 2 ^ 32 = f then
      some ((if descend ≠ 0 then i else ulong_sub max_level i) % 2 ^ 32)
    else if property = .GET_FREQ ∧ level = i then some f
    else get_property_find property input descend max_level level f (i + 1) rest

/-- Function `get_property(gpu, input, output, property)` (`gpu` is unused),
with `table` the global `gpu_freq_table` (`none` is a null pointer) and `output`
the cell behind the pointer (`none` is a null pointer). The result is the
return value and the cell after the call. The counters `i` (an `int`) and
`max_level` are natural numbers here: they do not wrap for a table of fewer
than `2 ^ 31` entries. -/
def get_property (table : Option (List cpufreq_frequency_table)) (_gpu : Nat) (input : Nat)
    (output : Option Nat) (property : gpufreq_cooling_property) : Int × Option Nat :=
  match output with
  | none => (-EINVAL, none)
  | some out =>
    match table with
    | none => (-EINVAL, some out)
    | some tbl =>
      let st := get_property_count ⟨CPUFREQ_ENTRY_INVALID, -1, 0⟩ (valid_entries tbl)
      if st.max_level = 0 then (-EINVAL, some out)
      else
        let max_level := st.max_level - 1
        if property = .GET_MAXL then (0, some (max_level % 2 ^ 32))
        else
          let level :=
            if property = .GET_FREQ then
              (if st.descend ≠ 0 then input else ulong_sub max_level input)
            else 0
          match get_property_find property input st.descend max_level level st.freq 0
              (valid_entries tbl) with
          | some v => (0, some v)
          | none => (-EINVAL, some out)

/-- Function `gpufreq_cooling_get_level(gpu, freq)`; `val` is the indeterminate content
of the local `val` before the call. -/
def gpufreq_cooling_get_level (table : Option (List cpufreq_frequency_table))
    (val : Nat) (gpu : Nat) (freq : Nat) : Nat :=
  let r := get_property table gpu (freq % 2 ^ 32) (some val) .GET_LEVEL
  if r.1 ≠ 0 then THERMAL_CSTATE_INVALID else r.2.getD val

/-- Function `gpufreq_cooling_get_freq(gpu, level)`; `THERMAL_CFREQ_INVALID` is the
value of the macro of that name as a `u32` (its definition is not among the
sources). -/
def gpufreq_cooling_get_freq (table : Option (List cpufreq_frequency_table))
    (THERMAL_CFREQ_INVALID : Nat) (gpu : Nat) (level : Nat) : Nat :=
  let r := get_property table gpu level (some 0) .GET_FREQ
  if r.1 ≠ 0 then THERMAL_CFREQ_INVALID else r.2.getD 0

/-- The frequencies that pass the duplicate test of the loops of `get_property`
when the local `freq` starts as `freq`. -/
def distinct_runs : Nat → List Nat → List Nat
  | _, [] => []
  | freq, f :: rest =>
    if freq = f then distinct_runs freq rest else f :: distinct_runs f rest

/-! ## Cooling levels and the cooling device -/

/-- The frequency levels of a table: the frequencies of its valid entries with
adjacent duplicates counted once. -/
def cooling_levels (tbl : List cpufreq_frequency_table) : List Nat :=
  List.destutter (fun a b => a ≠ b) (valid_entries tbl)

/-- The maximum cooling level of a table with at least one valid entry: the
number of frequency levels minus one. -/
def max_cooling_level (tbl : List cpufreq_frequency_table) : Nat :=
  (cooling_levels tbl).length - 1

/-- One entry of `struct power_table`: `frequency` and `power`, both `u32`. -/
structure power_table where
  frequency : Nat
  power : Nat
  deriving DecidableEq, Repr

/-- The members of `struct gpufreq_cooling_device` that the functions below
read or write. `dyn_power_table` is the allocated array, `var_table` the array
of `int` behind the pointer of that name. -/
structure gpufreq_cooling_device where
  gpufreq_state : Nat
  gpufreq_val : Nat
  last_load : Nat
  dyn_power_table : List power_table
  dyn_power_table_entries : Nat
  var_table : List Int
  var_volt_size : Nat
  var_temp_size : Nat
  deriving DecidableEq, Repr

/-- Function `gpufreq_get_max_state(cdev, state)`; `state` is the content of
`*state` before the call, the result is the return value and `*state` after
the call. -/
def gpufreq_get_max_state (table : Option (List cpufreq_frequency_table)) (state : Nat) :
    Int × Nat :=
  let r := get_property table 0 0 (some 0) .GET_MAXL
  let count := r.2.getD 0
  (r.1, if count > 0 then count else state)

/-- Function `gpufreq_apply_cooling(gpufreq_device, cooling_state)`. The result
is the return value, the device after the call and, when the notifier chain is
called with `GPU_THROTTLING`, the frequency handed to it. -/
def gpufreq_apply_cooling (table : Option (List cpufreq_frequency_table))
    (THERMAL_CFREQ_INVALID : Nat) (gpufreq_device : gpufreq_cooling_device)
    (cooling_state : Nat) : Int × gpufreq_cooling_device × Option Nat :=
  if gpufreq_device.gpufreq_state = cooling_state then (0, gpufreq_device, none)
  else
    let dev := { gpufreq_device with gpufreq_state := cooling_state }
    let gpu_cooling_freq :=
      gpufreq_cooling_get_freq table THERMAL_CFREQ_INVALID 0 dev.gpufreq_state
    if gpu_cooling_freq = THERMAL_CFREQ_INVALID then (-EINVAL, dev, none)
    else (0, dev, some (gpu_cooling_freq / 1000))

/-- Function `gpufreq_set_cur_state(cdev, state)` with `cdev->devdata` the
device. -/
def gpufreq_set_cur_state (table : Option (List cpufreq_frequency_table))
    (THERMAL_CFREQ_INVALID : Nat) (devdata : gpufreq_cooling_device) (state : Nat) :
    Int × gpufreq_cooling_device × Option Nat :=
  gpufreq_apply_cooling table THERMAL_CFREQ_INVALID devdata state

/-! ## The dynamic power table -/

/-- Modelled from the spec: the specification does not describe this constant,
which `<uapi/asm-generic/errno-base.h>` (not among the sources) defines. -/
def ENOMEM : Int := 12

/-- Element `pt[i]` of the power table. The loops below stay inside the array
when `dyn_power_table_entries` is at least 1 and at most its length; a read
outside the array, undefined in C, gives the zero entry here. -/
def power_table_at (pt : List power_table) (i : Nat) : power_table :=
  pt[i]?.getD ⟨0, 0⟩

/-- Loop `for (i = 1; i < entries; i++) if (freq < pt[i].frequency) break;` of
`gpu_freq_to_power`: the value of `i` after the loop, given the number of
iterations that remain (`entries - i`) and the current `i`. -/
def gpu_freq_to_power_index (pt : List power_table) (freq : Nat) : Nat → Nat → Nat
  | 0, i => i
  | n + 1, i =>
    if freq < (power_table_at pt i).frequency then i
    else gpu_freq_to_power_index pt freq n (i + 1)

/-- Function `gpu_freq_to_power(gpufreq_device, freq)`; `freq` is a `u32`. -/
def gpu_freq_to_power (gpufreq_device : gpufreq_cooling_device) (freq : Nat) : Nat :=
  let pt := gpufreq_device.dyn_power_table
  let i := gpu_freq_to_power_index pt (freq % 2 ^ 32)
    (gpufreq_device.dyn_power_table_entries - 1) 1
  (power_table_at pt (i - 1)).power

/-- Loop `for (i = 1; i < entries; i++) if (power < pt[i].power) break;` of
`gpu_power_to_freq`: the value of `i` after the loop, given the number of
iterations that remain (`entries - i`) and the current `i`. -/
def gpu_power_to_freq_index (pt : List power_table) (power : Nat) : Nat → Nat → Nat
  | 0, i => i
  | n + 1, i =>
    if power < (power_table_at pt i).power then i
    else gpu_power_to_freq_index pt power n (i + 1)

/-- Function `gpu_power_to_freq(gpufreq_device, power)`; `power` is a `u32`. -/
def gpu_power_to_freq (gpufreq_device : gpufreq_cooling_device) (power : Nat) : Nat :=
  let pt := gpufreq_device.dyn_power_table
  let i := gpu_power_to_freq_index pt (power % 2 ^ 32)
    (gpufreq_device.dyn_power_table_entries - 1) 1
  (power_table_at pt (i - 1)).frequency

/-- Modelled from the spec: the specification does not describe the GPU DVFS
interface, which the GPU driver (not among the sources) provides: the number of
DVFS steps `gpu_dvfs_get_step()`, the clock of a step `gpu_dvfs_get_clock(level)`,
the maximum clock `gpu_dvfs_get_max_freq()` and the voltage of a clock
`gpu_dvfs_get_voltage(clock)`. The values are the results as the callers hold
them, in an `int` counter or an `unsigned long`. -/
structure gpu_dvfs where
  gpu_dvfs_get_step : Nat
  gpu_dvfs_get_clock : Nat → Nat
  gpu_dvfs_get_max_freq : Nat
  gpu_dvfs_get_voltage : Nat → Nat

/-- The entry that the loop of `build_dyn_power_table` stores for a step of
clock `freq`: `voltage_mv` is a `u32`, the product is computed in `u64`,
`do_div` divides it by 1000000000, and both members of the entry are `u32`. -/
def dyn_power_entry (dvfs : gpu_dvfs) (capacitance : Nat) (freq : Nat) : power_table :=
  let voltage_mv := (dvfs.gpu_dvfs_get_voltage freq / 1000) % 2 ^ 32
  let power := ((capacitance % 2 ^ 32) * freq * voltage_mv * voltage_mv) % 2 ^ 64
  let power := power / 1000000000
  { frequency := freq % 2 ^ 32, power := power % 2 ^ 32 }

/-- Loop `for (freq = 0, i = 0; i < num_opps; i++)` of `build_dyn_power_table`
with the array `power_table` and the counter `cnt`, given the number of
iterations that remain (`num_opps - i`) and the current `i`. A step above the
maximum clock is skipped by `continue`: slot `i` stays as it is and `cnt` is
not incremented. -/
def build_dyn_power_table_loop (dvfs : gpu_dvfs) (capacitance : Nat) (num_opps : Nat) :
    Nat → Nat → List power_table → Nat → List power_table × Nat
  | 0, _, power_table, cnt => (power_table, cnt)
  | n + 1, i, power_table, cnt =>
    let freq := dvfs.gpu_dvfs_get_clock (num_opps - i - 1)
    if freq > dvfs.gpu_dvfs_get_max_freq then
      build_dyn_power_table_loop dvfs capacitance num_opps n (i + 1) power_table cnt
    else
      build_dyn_power_table_loop dvfs capacitance num_opps n (i + 1)
        (power_table.set i (dyn_power_entry dvfs capacitance freq)) (cnt + 1)

/-- Function `build_dyn_power_table(gpufreq_device, capacitance)`; `alloc_ok`
says whether `kcalloc` succeeds, and `kcalloc` hands out zeroed entries. The
result is the return value and the device after the call. -/
def build_dyn_power_table (dvfs : gpu_dvfs) (alloc_ok : Bool)
    (gpufreq_device : gpufreq_cooling_device) (capacitance : Nat) :
    Int × gpufreq_cooling_device :=
  let num_opps := dvfs.gpu_dvfs_get_step
  if num_opps = 0 then (-EINVAL, gpufreq_device)
  else if alloc_ok = false then (-ENOMEM, gpufreq_device)
  else
    let r := build_dyn_power_table_loop dvfs capacitance num_opps num_opps 0
      (List.replicate num_opps ⟨0, 0⟩) 0
    (0, { gpufreq_device with dyn_power_table := r.1, dyn_power_table_entries := r.2 })

/-! ## Static power and `gpufreq_state2power` -/

/-- Value of an `int` converted to `unsigned long`. -/
def int_to_ulong (x : Int) : Nat :=
  (x % 2 ^ 64).toNat

/-- Value of an `int` converted to `unsigned int`. -/
def int_to_uint (x : Int) : Nat :=
  (x % 2 ^ 32).toNat

/-- Value of an `unsigned int` converted to `int`. -/
def uint_to_int (x : Nat) : Int :=
  ((x : Int) + 2 ^ 31) % 2 ^ 32 - 2 ^ 31

/-- Element `var_table[i]` of the `int` array; the index is an `unsigned int`
expression. The loops of `lookup_static_power` stay inside an array of
`(var_volt_size + 1) * (var_temp_size + 1)` elements; a read outside the
array, undefined in C, gives 0 here. -/
def var_table_at (gpufreq_device : gpufreq_cooling_device) (i : Nat) : Int :=
  gpufreq_device.var_table[i % 2 ^ 32]?.getD 0

/-- First loop of `lookup_static_power`: the value of `volt_index` after the
loop, given the number of iterations that remain and the current
`volt_index`; `voltage` is already in millivolt. -/
def lookup_volt_index (gpufreq_device : gpufreq_cooling_device) (voltage : Nat) :
    Nat → Nat → Int
  | 0, volt_index => volt_index
  | n + 1, volt_index =>
    if voltage < int_to_ulong (var_table_at gpufreq_device
        (volt_index * (gpufreq_device.var_temp_size + 1))) then (volt_index : Int) - 1
    else lookup_volt_index gpufreq_device voltage n (volt_index + 1)

/-- Second loop of `lookup_static_power`: the value of `temp_index` after the
loop, given the number of iterations that remain and the current
`temp_index`; `temperature` is already in degrees. -/
def lookup_temp_index (gpufreq_device : gpufreq_cooling_device) (temperature : Int) :
    Nat → Nat → Int
  | 0, temp_index => temp_index
  | n + 1, temp_index =>
    if temperature < var_table_at gpufreq_device temp_index then (temp_index : Int) - 1
    else lookup_temp_index gpufreq_device temperature n (temp_index + 1)

/-- The two adjustments after each loop of `lookup_static_power`:
`if (index == 0) index = 1; if (index > size) index = size;`, the second
comparison being one of `unsigned int`. -/
def clamp_index (index : Int) (size : Nat) : Int :=
  let index := if index = 0 then 1 else index
  if int_to_uint index > size then uint_to_int size else index

/-- Function `lookup_static_power(gpufreq_device, voltage, temperature, power)`:
the return value and the value stored to `*power`. -/
def lookup_static_power (gpufreq_device : gpufreq_cooling_device) (voltage : Nat)
    (temperature : Int) : Int × Nat :=
  let voltage := voltage / 1000
  let temperature := Int.tdiv temperature 1000
  let volt_index := clamp_index
    (lookup_volt_index gpufreq_device voltage (gpufreq_device.var_volt_size + 1) 0)
    gpufreq_device.var_volt_size
  let temp_index := clamp_index
    (lookup_temp_index gpufreq_device temperature (gpufreq_device.var_temp_size + 1) 0)
    gpufreq_device.var_temp_size
  (0, int_to_uint (var_table_at gpufreq_device
    (int_to_uint volt_index * (gpufreq_device.var_temp_size + 1) + int_to_uint temp_index)))

/-- Function `get_static_power(gpufreq_device, tz, freq, power)` with
`temperature` the member `tz->temperature` and `power` the content of `*power`
before the call: the return value and `*power` after the call. -/
def get_static_power (dvfs : gpu_dvfs) (gpufreq_device : gpufreq_cooling_device)
    (temperature : Int) (freq : Nat) (power : Nat) : Int × Nat :=
  if freq = 0 then (0, 0)
  else
    let voltage := dvfs.gpu_dvfs_get_voltage freq
    if voltage = 0 then (-EINVAL, power)
    else lookup_static_power gpufreq_device voltage temperature

/-- Function `gpufreq_state2power(cdev, tz, state, power)` with `table` the
array behind `gpu_freq_table`, `temperature` the member `tz->temperature` and
`power` the content of `*power` before the call: the return value and `*power`
after the call, or `none` when `gpu_freq_table[state]` lies outside the array.
The local `static_power` is written on every path that uses it. -/
def gpufreq_state2power (dvfs : gpu_dvfs) (table : List cpufreq_frequency_table)
    (gpufreq_device : gpufreq_cooling_device) (temperature : Int) (state : Nat)
    (power : Nat) : Option (Int × Nat) :=
  match table[state]? with
  | none => none
  | some entry =>
    let freq := entry.frequency / 1000
    if freq = 0 then some (-EINVAL, power)
    else
      let dynamic_power := gpu_freq_to_power gpufreq_device freq
      let r := get_static_power dvfs gpufreq_device temperature freq 0
      if r.1 ≠ 0 then some (r.1, power)
      else some (0, (r.2 + dynamic_power) % 2 ^ 32)

end GpuCooling

namespace FimcIsPreproc

/-! ## `setup-fimc-is-preprocessor.c`: clocks of the preprocessor -/

/-- The SoC configurations for which the file defines its functions; with any
other configuration the wrappers do not compile (`#error`). -/
inductive SocConfig where
  | EXYNOS8895
  | EXYNOS8890
  | EXYNOS7570
  | EXYNOS7870
  | EXYNOS7880
  | EXYNOS7872
  deriving DecidableEq, Repr

/-- Modelled from the spec: the clock operations `fimc_is_enable`,
`fimc_is_disable` and `fimc_is_set_rate` are declared in `exynos-fimc-is.h`,
which is not among the sources. Section 6 treats them as opaque capability
calls keyed by a clock name that succeed or fail: each takes the device, the
clock name (and the rate) and the state of the clocks, and yields its `int`
result and the state it leaves. -/
structure ClockOps (W : Type) where
  fimc_is_enable : Nat → String → W → Int × W
  fimc_is_disable : Nat → String → W → Int × W
  fimc_is_set_rate : Nat → String → Nat → W → Int × W

/-- Text that `snprintf` produces for `%d` when it is handed the `u32`
`channel`: the decimal form of its value as an `int`. -/
def format_d (channel : Nat) : String :=
  toString ((((channel : Int) + 2 ^ 31) % 2 ^ 32) - 2 ^ 31)

/-- A run of `fimc_is_enable(dev, name);` statements, one per name, each
result discarded. -/
def enable_each {W : Type} (ops : ClockOps W) (dev : Nat) (names : List String)
    (w : W) : W :=
  names.foldl (fun w name => (ops.fimc_is_enable dev name w).2) w

/-- A run of `fimc_is_disable(dev, name);` statements, one per name, each
result discarded. -/
def disable_each {W : Type} (ops : ClockOps W) (dev : Nat) (names : List String)
    (w : W) : W :=
  names.foldl (fun w name => (ops.fimc_is_disable dev name w).2) w

/-- Function `exynos8895_fimc_is_preproc_iclk_cfg(dev, scenario, channel)`. -/
def exynos8895_fimc_is_preproc_iclk_cfg {W : Type} (_ops : ClockOps W)
    (_dev _scenario _channel : Nat) (w : W) : Int × W :=
  (0, w)

/-- Function `exynos8895_fimc_is_preproc_iclk_on(dev, scenario, channel)`. -/
def exynos8895_fimc_is_preproc_iclk_on {W : Type} (ops : ClockOps W)
    (dev _scenario _channel : Nat) (w : W) : Int × W :=
  let w := (ops.fimc_is_enable dev "MUX_CIS_CLK2" w).2
  (0, w)

/-- Function `exynos8895_fimc_is_preproc_iclk_off(dev, scenario, channel)`. -/
def exynos8895_fimc_is_preproc_iclk_off {W : Type} (ops : ClockOps W)
    (dev _scenario _channel : Nat) (w : W) : Int × W :=
  let w := (ops.fimc_is_disable dev "MUX_CIS_CLK2" w).2
  (0, w)

/-- Function `exynos8895_fimc_is_preproc_mclk_on(dev, scenario, channel)`. -/
def exynos8895_fimc_is_preproc_mclk_on {W : Type} (ops : ClockOps W)
    (dev _scenario _channel : Nat) (w : W) : Int × W :=
  let sclk_name := "CIS_CLK2"
  let w := (ops.fimc_is_enable dev sclk_name w).2
  let w := (ops.fimc_is_set_rate dev sclk_name (26 * 1000000) w).2
  (0, w)

/-- Function `exynos8895_fimc_is_preproc_mclk_off(dev, scenario, channel)`. -/
def exynos8895_fimc_is_preproc_mclk_off {W : Type} (ops : ClockOps W)
    (dev _scenario _channel : Nat) (w : W) : Int × W :=
  let sclk_name := "CIS_CLK2"
  let w := (ops.fimc_is_disable dev sclk_name w).2
  (0, w)

/-- Function `exynos8890_fimc_is_preproc_iclk_cfg(dev, scenario, channel)`. -/
def exynos8890_fimc_is_preproc_iclk_cfg {W : Type} (_ops : ClockOps W)
    (_dev _scenario _channel : Nat) (w : W) : Int × W :=
  (0, w)

/-- Function `exynos8890_fimc_is_preproc_iclk_on(dev, scenario, channel)`. -/
def exynos8890_fimc_is_preproc_iclk_on {W : Type} (ops : ClockOps W)
    (dev _scenario _channel : Nat) (w : W) : Int × W :=
  let w := enable_each ops dev
    ["gate_i2c0_isp", "gate_i2c1_isp", "gate_i2c2_isp", "gate_i2c3_isp", "gate_wdt_isp",
     "gate_mcuctl_isp", "gate_uart_isp", "gate_pdma_isp", "gate_pwm_isp", "gate_spi0_isp",
     "gate_spi1_isp", "isp_spi0", "isp_spi1", "isp_uart", "gate_sclk_pwm_isp",
     "gate_sclk_uart_isp", "cam1_peri"] w
  let w := (ops.fimc_is_set_rate dev "isp_spi0" (100 * 1000000) w).2
  let w := (ops.fimc_is_set_rate dev "isp_spi1" (100 * 1000000) w).2
  let w := (ops.fimc_is_set_rate dev "isp_uart" (132 * 1000000) w).2
  (0, w)

/-- Function `exynos8890_fimc_is_preproc_iclk_off(dev, scenario, channel)`. -/
def exynos8890_fimc_is_preproc_iclk_off {W : Type} (ops : ClockOps W)
    (dev _scenario _channel : Nat) (w : W) : Int × W :=
  let w := disable_each ops dev
    ["gate_i2c0_isp", "gate_i2c1_isp", "gate_i2c2_isp", "gate_i2c3_isp", "gate_wdt_isp",
     "gate_mcuctl_isp", "gate_uart_isp", "gate_pdma_isp", "gate_pwm_isp", "gate_spi0_isp",
     "gate_spi1_isp", "isp_spi0", "isp_spi1", "isp_uart", "gate_sclk_pwm_isp",
     "gate_sclk_uart_isp", "cam1_peri"] w
  (0, w)

/-- Function `exynos8890_fimc_is_preproc_mclk_on(dev, scenario, channel)`. -/
def exynos8890_fimc_is_preproc_mclk_on {W : Type} (ops : ClockOps W)
    (dev _scenario channel : Nat) (w : W) : Int × W :=
  let sclk_name := "isp_sensor" ++ format_d channel
  let w := (ops.fimc_is_enable dev sclk_name w).2
  let w := (ops.fimc_is_set_rate dev sclk_name (26 * 1000000) w).2
  (0, w)

/-- Function `exynos8890_fimc_is_preproc_mclk_off(dev, scenario, channel)`. -/
def exynos8890_fimc_is_preproc_mclk_off {W : Type} (ops : ClockOps W)
    (dev _scenario channel : Nat) (w : W) : Int × W :=
  let sclk_name := "isp_sensor" ++ format_d channel
  let w := (ops.fimc_is_disable dev sclk_name w).2
  (0, w)

/-- Function `exynos7570_fimc_is_preproc_iclk_cfg(dev, scenario, channel)`. -/
def exynos7570_fimc_is_preproc_iclk_cfg {W : Type} (_ops : ClockOps W)
    (_dev _scenario _channel : Nat) (w : W) : Int × W :=
  (0, w)

/-- Function `exynos7570_fimc_is_preproc_iclk_on(dev, scenario, channel)`. -/
def exynos7570_fimc_is_preproc_iclk_on {W : Type} (_ops : ClockOps W)
    (_dev _scenario _channel : Nat) (w : W) : Int × W :=
  (0, w)

/-- Function `exynos7570_fimc_is_preproc_iclk_off(dev, scenario, channel)`. -/
def exynos7570_fimc_is_preproc_iclk_off {W : Type} (_ops : ClockOps W)
    (_dev _scenario _channel : Nat) (w : W) : Int × W :=
  (0, w)

/-- Function `exynos7570_fimc_is_preproc_mclk_on(dev, scenario, channel)`. -/
def exynos7570_fimc_is_preproc_mclk_on {W : Type} (_ops : ClockOps W)
    (_dev _scenario _channel : Nat) (w : W) : Int × W :=
  (0, w)

/-- Function `exynos7570_fimc_is_preproc_mclk_off(dev, scenario, channel)`. -/
def exynos7570_fimc_is_preproc_mclk_off {W : Type} (_ops : ClockOps W)
    (_dev _scenario _channel : Nat) (w : W) : Int × W :=
  (0, w)

/-- Function `exynos7870_fimc_is_preproc_iclk_cfg(dev, scenario, channel)`. -/
def exynos7870_fimc_is_preproc_iclk_cfg {W : Type} (_ops : ClockOps W)
    (_dev _scenario _channel : Nat) (w : W) : Int × W :=
  (0, w)

/-- Function `exynos7870_fimc_is_preproc_iclk_on(dev, scenario, channel)`. -/
def exynos7870_fimc_is_preproc_iclk_on {W : Type} (_ops : ClockOps W)
    (_dev _scenario _channel : Nat) (w : W) : Int × W :=
  (0, w)

/-- Function `exynos7870_fimc_is_preproc_iclk_off(dev, scenario, channel)`. -/
def exynos7870_fimc_is_preproc_iclk_off {W : Type} (_ops : ClockOps W)
    (_dev _scenario _channel : Nat) (w : W) : Int × W :=
  (0, w)

/-- Function `exynos7870_fimc_is_preproc_mclk_on(dev, scenario, channel)`. -/
def exynos7870_fimc_is_preproc_mclk_on {W : Type} (_ops : ClockOps W)
    (_dev _scenario _channel : Nat) (w : W) : Int × W :=
  (0, w)

/-- Function `exynos7870_fimc_is_preproc_mclk_off(dev, scenario, channel)`. -/
def exynos7870_fimc_is_preproc_mclk_off {W : Type} (_ops : ClockOps W)
    (_dev _scenario _channel : Nat) (w : W) : Int × W :=
  (0, w)

/-- Function `exynos7880_fimc_is_preproc_iclk_cfg(dev, scenario, channel)`. -/
def exynos7880_fimc_is_preproc_iclk_cfg {W : Type} (_ops : ClockOps W)
    (_dev _scenario _channel : Nat) (w : W) : Int × W :=
  (0, w)

/-- Function `exynos7880_fimc_is_preproc_iclk_on(dev, scenario, channel)`. -/
def exynos7880_fimc_is_preproc_iclk_on {W : Type} (ops : ClockOps W)
    (dev _scenario _channel : Nat) (w : W) : Int × W :=
  let w := enable_each ops dev
    ["sclk_spi_rearfrom", "sclk_spi_frontfrom", "hsi2c_frontcam", "hsi2c_maincam",
     "hsi2c_depthcam", "hsi2c_frontsensor", "hsi2c_rearaf", "hsi2c_rearsensor", "spi_rearfrom",
     "spi_frontfrom"] w
  (0, w)

/-- Function `exynos7880_fimc_is_preproc_iclk_off(dev, scenario, channel)`. -/
def exynos7880_fimc_is_preproc_iclk_off {W : Type} (ops : ClockOps W)
    (dev _scenario _channel : Nat) (w : W) : Int × W :=
  let w := disable_each ops dev
    ["sclk_spi_rearfrom", "sclk_spi_frontfrom", "hsi2c_frontcam", "hsi2c_maincam",
     "hsi2c_depthcam", "hsi2c_frontsensor", "hsi2c_rearaf", "hsi2c_rearsensor", "spi_rearfrom",
     "spi_frontfrom"] w
  (0, w)

/-- Function `exynos7880_fimc_is_preproc_mclk_on(dev, scenario, channel)`. -/
def exynos7880_fimc_is_preproc_mclk_on {W : Type} (ops : ClockOps W)
    (dev _scenario channel : Nat) (w : W) : Int × W :=
  let sclk_name := "isp_sensor" ++ format_d channel ++ "_sclk"
  let w := (ops.fimc_is_enable dev sclk_name w).2
  let w := (ops.fimc_is_set_rate dev sclk_name (26 * 1000000) w).2
  (0, w)

/-- Function `exynos7880_fimc_is_preproc_mclk_off(dev, scenario, channel)`. -/
def exynos7880_fimc_is_preproc_mclk_off {W : Type} (ops : ClockOps W)
    (dev _scenario channel : Nat) (w : W) : Int × W :=
  let sclk_name := "isp_sensor" ++ format_d channel ++ "_sclk"
  let w := (ops.fimc_is_disable dev sclk_name w).2
  (0, w)

/-- Function `exynos7872_fimc_is_preproc_iclk_cfg(dev, scenario, channel)`. -/
def exynos7872_fimc_is_preproc_iclk_cfg {W : Type} (_ops : ClockOps W)
    (_dev _scenario _channel : Nat) (w : W) : Int × W :=
  (0, w)

/-- Function `exynos7872_fimc_is_preproc_iclk_on(dev, scenario, channel)`. -/
def exynos7872_fimc_is_preproc_iclk_on {W : Type} (_ops : ClockOps W)
    (_dev _scenario _channel : Nat) (w : W) : Int × W :=
  (0, w)

/-- Function `exynos7872_fimc_is_preproc_iclk_off(dev, scenario, channel)`. -/
def exynos7872_fimc_is_preproc_iclk_off {W : Type} (_ops : ClockOps W)
    (_dev _scenario _channel : Nat) (w : W) : Int × W :=
  (0, w)

/-- Function `exynos7872_fimc_is_preproc_mclk_on(dev, scenario, channel)`. -/
def exynos7872_fimc_is_preproc_mclk_on {W : Type} (_ops : ClockOps W)
    (_dev _scenario _channel : Nat) (w : W) : Int × W :=
  (0, w)

/-- Function `exynos7872_fimc_is_preproc_mclk_off(dev, scenario, channel)`. -/
def exynos7872_fimc_is_preproc_mclk_off {W : Type} (_ops : ClockOps W)
    (_dev _scenario _channel : Nat) (w : W) : Int × W :=
  (0, w)

/-- Wrapper `exynos_fimc_is_preproc_iclk_cfg(dev, scenario, channel)`: the function of the
configured SoC is called, its result is dropped, and 0 is returned. -/
def exynos_fimc_is_preproc_iclk_cfg {W : Type} (soc : SocConfig) (ops : ClockOps W)
    (dev scenario channel : Nat) (w : W) : Int × W :=
  let w := match soc with
    | .EXYNOS8895 => (exynos8895_fimc_is_preproc_iclk_cfg ops dev scenario channel w).2
    | .EXYNOS8890 => (exynos8890_fimc_is_preproc_iclk_cfg ops dev scenario channel w).2
    | .EXYNOS7570 => (exynos7570_fimc_is_preproc_iclk_cfg ops dev scenario channel w).2
    | .EXYNOS7870 => (exynos7870_fimc_is_preproc_iclk_cfg ops dev scenario channel w).2
    | .EXYNOS7880 => (exynos7880_fimc_is_preproc_iclk_cfg ops dev scenario channel w).2
    | .EXYNOS7872 => (exynos7872_fimc_is_preproc_iclk_cfg ops dev scenario channel w).2
  (0, w)

/-- Wrapper `exynos_fimc_is_preproc_iclk_on(dev, scenario, channel)`: the function of the
configured SoC is called, its result is dropped, and 0 is returned. -/
def exynos_fimc_is_preproc_iclk_on {W : Type} (soc : SocConfig) (ops : ClockOps W)
    (dev scenario channel : Nat) (w : W) : Int × W :=
  let w := match soc with
    | .EXYNOS8895 => (exynos8895_fimc_is_preproc_iclk_on ops dev scenario channel w).2
    | .EXYNOS8890 => (exynos8890_fimc_is_preproc_iclk_on ops dev scenario channel w).2
    | .EXYNOS7570 => (exynos7570_fimc_is_preproc_iclk_on ops dev scenario channel w).2
    | .EXYNOS7870 => (exynos7870_fimc_is_preproc_iclk_on ops dev scenario channel w).2
    | .EXYNOS7880 => (exynos7880_fimc_is_preproc_iclk_on ops dev scenario channel w).2
    | .EXYNOS7872 => (exynos7872_fimc_is_preproc_iclk_on ops dev scenario channel w).2
  (0, w)

/-- Wrapper `exynos_fimc_is_preproc_iclk_off(dev, scenario, channel)`: the function of the
configured SoC is called, its result is dropped, and 0 is returned. -/
def exynos_fimc_is_preproc_iclk_off {W : Type} (soc : SocConfig) (ops : ClockOps W)
    (dev scenario channel : Nat) (w : W) : Int × W :=
  let w := match soc with
    | .EXYNOS8895 => (exynos8895_fimc_is_preproc_iclk_off ops dev scenario channel w).2
    | .EXYNOS8890 => (exynos8890_fimc_is_preproc_iclk_off ops dev scenario channel w).2
    | .EXYNOS7570 => (exynos7570_fimc_is_preproc_iclk_off ops dev scenario channel w).2
    | .EXYNOS7870 => (exynos7870_fimc_is_preproc_iclk_off ops dev scenario channel w).2
    | .EXYNOS7880 => (exynos7880_fimc_is_preproc_iclk_off ops dev scenario channel w).2
    | .EXYNOS7872 => (exynos7872_fimc_is_preproc_iclk_off ops dev scenario channel w).2
  (0, w)

/-- Wrapper `exynos_fimc_is_preproc_mclk_on(dev, scenario, channel)`: the function of the
configured SoC is called, its result is dropped, and 0 is returned. -/
def exynos_fimc_is_preproc_mclk_on {W : Type} (soc : SocConfig) (ops : ClockOps W)
    (dev scenario channel : Nat) (w : W) : Int × W :=
  let w := match soc with
    | .EXYNOS8895 => (exynos8895_fimc_is_preproc_mclk_on ops dev scenario channel w).2
    | .EXYNOS8890 => (exynos8890_fimc_is_preproc_mclk_on ops dev scenario channel w).2
    | .EXYNOS7570 => (exynos7570_fimc_is_preproc_mclk_on ops dev scenario channel w).2
    | .EXYNOS7870 => (exynos7870_fimc_is_preproc_mclk_on ops dev scenario channel w).2
    | .EXYNOS7880 => (exynos7880_fimc_is_preproc_mclk_on ops dev scenario channel w).2
    | .EXYNOS7872 => (exynos7872_fimc_is_preproc_mclk_on ops dev scenario channel w).2
  (0, w)

/-- Wrapper `exynos_fimc_is_preproc_mclk_off(dev, scenario, channel)`: the function of the
configured SoC is called, its result is dropped, and 0 is returned. -/
def exynos_fimc_is_preproc_mclk_off {W : Type} (soc : SocConfig) (ops : ClockOps W)
    (dev scenario channel : Nat) (w : W) : Int × W :=
  let w := match soc with
    | .EXYNOS8895 => (exynos8895_fimc_is_preproc_mclk_off ops dev scenario channel w).2
    | .EXYNOS8890 => (exynos8890_fimc_is_preproc_mclk_off ops dev scenario channel w).2
    | .EXYNOS7570 => (exynos7570_fimc_is_preproc_mclk_off ops dev scenario channel w).2
    | .EXYNOS7870 => (exynos7870_fimc_is_preproc_mclk_off ops dev scenario channel w).2
    | .EXYNOS7880 => (exynos7880_fimc_is_preproc_mclk_off ops dev scenario channel w).2
    | .EXYNOS7872 => (exynos7872_fimc_is_preproc_mclk_off ops dev scenario channel w).2
  (0, w)

end FimcIsPreproc

/-! # Theorems -/

namespace FimcIs

/-! ### Bit lemmas -/

theorem test_bit_set_bit (m n s : Nat) :
    test_bit m (set_bit n s) = (test_bit m s || decide (n = m)) := by
  simp [test_bit, set_bit, Nat.testBit_or, Nat.one_shiftLeft, Nat.testBit_two_pow]

theorem test_bit_clear_bit (m n s : Nat) (hn : n < BITS_PER_LONG) :
    test_bit m (clear_bit n s)
      = (test_bit m s && (decide (m < BITS_PER_LONG) && !decide (n = m))) := by
  have hlt : 2 ^ n < 2 ^ BITS_PER_LONG := Nat.pow_lt_pow_right (by decide) hn
  simp only [test_bit, clear_bit, Nat.testBit_and, Nat.one_shiftLeft,
    Nat.testBit_two_pow_sub_succ hlt, Nat.testBit_two_pow]

/-- A single event turns `HW_RUN` on only from a state with `HW_CONFIG` set. -/
theorem hw_state_step_run_after_config (s : Nat) (e : HwEvent)
    (h0 : test_bit HW_RUN s = false) (h1 : test_bit HW_RUN (hw_state_step s e) = true) :
    test_bit HW_CONFIG s = true := by
  cases e with
  | shot =>
    simp only [hw_state_step, hw_event, test_bit_set_bit, HW_RUN, HW_CONFIG] at h0 h1
    simp [h0] at h1
  | frame_start =>
    by_cases hg : test_bit HW_CONFIG s = true ∧ test_bit HW_RUN s = false
    · exact hg.1
    · simp only [hw_state_step, hw_event, if_neg hg] at h1
      rw [h0] at h1
      cases h1
  | frame_end =>
    simp [hw_state_step, hw_event, test_bit_clear_bit, HW_RUN, BITS_PER_LONG] at h1

/-! ### C1 -/

/-- C1: for every unit state and every sequence of shot, frame-start and
frame-end events, every transition that turns `HW_RUN` on starts from a state
in which `HW_CONFIG` is set: the state never has `HW_RUN` set unless
`HW_CONFIG` was set immediately before the transition that set it. The bits
move as the claim says: `HW_CONFIG` is set at shot and cleared at an accepted
frame start, `HW_RUN` is set at an accepted frame start and cleared at frame
end; a frame start for a unit that is not configured, or is running already,
is refused as a protocol violation and changes nothing. -/
theorem c1_run_only_after_config (state : Nat) (events : List HwEvent) (k : Nat)
    (hk : k < events.length) :
    (test_bit HW_RUN (hw_state_after state (events.take k)) = false →
      test_bit HW_RUN (hw_state_after state (events.take (k + 1))) = true →
      test_bit HW_CONFIG (hw_state_after state (events.take k)) = true) ∧
    test_bit HW_CONFIG (hw_state_step state .shot) = true ∧
    (test_bit HW_CONFIG state = true → test_bit HW_RUN state = false →
      test_bit HW_RUN (hw_state_step state .frame_start) = true ∧
      test_bit HW_CONFIG (hw_state_step state .frame_start) = false) ∧
    test_bit HW_RUN (hw_state_step state .frame_end) = false ∧
    (¬ (test_bit HW_CONFIG state = true ∧ test_bit HW_RUN state = false) →
      hw_event state .frame_start = (.error .ProtocolViolation, state)) := by
  refine ⟨?_, ?_, ?_, ?_, ?_⟩
  · intro h0 h1
    have hstep : hw_state_after state (events.take (k + 1))
        = hw_state_step (hw_state_after state (events.take k)) (events.get ⟨k, hk⟩) := by
      unfold hw_state_after
      rw [List.take_succ, List.foldl_append, List.getElem?_eq_getElem hk]
      rfl
    rw [hstep] at h1
    exact hw_state_step_run_after_config _ _ h0 h1
  · simp [hw_state_step, hw_event, test_bit_set_bit]
  · intro hc hr
    simp only [hw_state_step, hw_event, if_pos (And.intro hc hr)]
    constructor
    · simp [test_bit_set_bit]
    · simp [test_bit_set_bit, test_bit_clear_bit, HW_RUN, HW_CONFIG, BITS_PER_LONG]
  · simp [hw_state_step, hw_event, test_bit_clear_bit, HW_RUN, BITS_PER_LONG]
  · intro h
    show (if _ then _ else _) = _
    rw [if_neg h]

/-- Witness of `c1_run_only_after_config`: shot, frame start, frame end from
the state `OPEN | INIT`; the second event turns `HW_RUN` on. -/
theorem c1_run_only_after_config_witness :
    test_bit HW_CONFIG (hw_state_after 3
      ([HwEvent.shot, HwEvent.frame_start, HwEvent.frame_end].take 1)) = true :=
  (c1_run_only_after_config 3 [HwEvent.shot, HwEvent.frame_start, HwEvent.frame_end] 1
    (by decide)).1 (by decide) (by decide)

/-! ### C2 -/

/-- C2: for every non-empty frame queue, a completing frame number that
differs from the head's frame number makes dequeue-on-done report
`ProtocolViolation` and leaves the queue as it was; a number that matches the
head removes exactly the head. -/
theorem c2_dequeue_on_done (queue : List fimc_is_frame) (fcount : Nat)
    (hne : queue ≠ []) :
    (∀ head ∈ queue.head?, head.fcount ≠ fcount →
        frame_dequeue_on_done queue fcount = (.error .ProtocolViolation, queue)) ∧
    (∀ head ∈ queue.head?, head.fcount = fcount →
        frame_dequeue_on_done queue fcount = (.ok head, queue.tail)) := by
  cases queue with
  | nil => exact absurd rfl hne
  | cons f rest =>
    constructor
    · intro head hh hf
      simp only [List.head?_cons, Option.mem_def, Option.some.injEq] at hh
      subst hh
      simp [frame_dequeue_on_done, hf]
    · intro head hh hf
      simp only [List.head?_cons, Option.mem_def, Option.some.injEq] at hh
      subst hh
      simp [frame_dequeue_on_done, hf]

/-- Witness of `c2_dequeue_on_done`: frames 7 and 8 are queued; completing 8
is a violation that keeps both queued, completing 7 removes frame 7. -/
theorem c2_dequeue_on_done_witness :
    frame_dequeue_on_done [⟨7, 0, 0⟩, ⟨8, 0, 0⟩] 8
        = (.error .ProtocolViolation, [⟨7, 0, 0⟩, ⟨8, 0, 0⟩]) ∧
    frame_dequeue_on_done [⟨7, 0, 0⟩, ⟨8, 0, 0⟩] 7 = (.ok ⟨7, 0, 0⟩, [⟨8, 0, 0⟩]) :=
  ⟨(c2_dequeue_on_done [⟨7, 0, 0⟩, ⟨8, 0, 0⟩] 8 (by decide)).1 ⟨7, 0, 0⟩ rfl (by decide),
   (c2_dequeue_on_done [⟨7, 0, 0⟩, ⟨8, 0, 0⟩] 7 (by decide)).2 ⟨7, 0, 0⟩ rfl rfl⟩

/-! ### C3 -/

/-- C3: for every setfile store and every scenario at or beyond
`num_scenarios`, `apply_setfile` returns `ConfigError` and the store
(`applied_scenario` and the rest of the per-unit table) is unchanged. -/
theorem c3_apply_setfile_out_of_range (num_scenarios : Nat)
    (program : setfile_table_entry → Except HwError Unit)
    (setfile : fimc_is_hw_ip_setfile) (scenario : Nat)
    (h : num_scenarios ≤ scenario) :
    apply_setfile num_scenarios program setfile scenario
      = (.error .ConfigError, setfile) := by
  simp [apply_setfile, h]

/-- Witness of `c3_apply_setfile_out_of_range`: two scenarios, scenario 2 is
requested. -/
theorem c3_apply_setfile_out_of_range_witness :
    apply_setfile 2 (fun _ => .ok ()) ⟨3, 1, 1, [0, 0], [⟨4096, 16⟩]⟩ 2
      = (.error .ConfigError, ⟨3, 1, 1, [0, 0], [⟨4096, 16⟩]⟩) :=
  c3_apply_setfile_out_of_range 2 (fun _ => .ok ()) ⟨3, 1, 1, [0, 0], [⟨4096, 16⟩]⟩ 2
    (by decide)

/-! ### Clock gate lemmas -/

theorem clk_gate_step_refcnt (g : fimc_is_clk_gate) (idx : Nat) (b : Bool) :
    (fimc_is_hardware_clk_gate g idx b).refcnt idx
      = g.refcnt idx + (if b then 1 else -1) := by
  cases b <;> simp [fimc_is_hardware_clk_gate, Int.sub_eq_add_neg]

theorem clk_gate_step_bit (g : fimc_is_clk_gate) (idx : Nat) (b : Bool) :
    (fimc_is_hardware_clk_gate g idx b).bit = g.bit := by
  cases b <;> simp [fimc_is_hardware_clk_gate]

theorem clk_gate_step_regs (g : fimc_is_clk_gate) (idx : Nat) (b : Bool) :
    (fimc_is_hardware_clk_gate g idx b).regs
      = if b = true ∧ g.refcnt idx = 0 then FIMC_IS_CLOCK_ON g.regs (g.bit idx)
        else if b = false ∧ g.refcnt idx = 1 then FIMC_IS_CLOCK_OFF g.regs (g.bit idx)
        else g.regs := by
  cases b
  · by_cases h : g.refcnt idx = 1
    · simp [fimc_is_hardware_clk_gate, h]
    · have h2 : ¬ (g.refcnt idx - 1 = 0) := by omega
      simp [fimc_is_hardware_clk_gate, h, h2]
  · by_cases h : g.refcnt idx = 0
    · simp [fimc_is_hardware_clk_gate, h]
    · have h2 : ¬ (g.refcnt idx + 1 = 1) := by omega
      simp [fimc_is_hardware_clk_gate, h, h2]

theorem clk_gate_after_refcnt (calls : List Bool) :
    ∀ (g : fimc_is_clk_gate) (idx : Nat),
      (clk_gate_after g idx calls).refcnt idx
        = g.refcnt idx + (calls.count true : Int) - (calls.count false : Int) := by
  induction calls with
  | nil => intro g idx; simp [clk_gate_after]
  | cons b bs ih =>
    intro g idx
    have := ih (fimc_is_hardware_clk_gate g idx b) idx
    simp only [clk_gate_after, List.foldl_cons] at this ⊢
    rw [this, clk_gate_step_refcnt]
    cases b <;> simp [List.count_cons] <;> omega

theorem clk_gate_after_succ (g : fimc_is_clk_gate) (idx : Nat) (calls : List Bool)
    (k : Nat) (hk : k < calls.length) :
    clk_gate_after g idx (calls.take (k + 1))
      = fimc_is_hardware_clk_gate (clk_gate_after g idx (calls.take k)) idx
          (calls.get ⟨k, hk⟩) := by
  unfold clk_gate_after
  rw [List.take_succ, List.foldl_append, List.getElem?_eq_getElem hk]
  rfl

theorem clock_on_sets_bit (r : GateReg) (bit : Nat) (h : bit < 32) :
    (FIMC_IS_CLOCK_ON r bit).value.testBit bit = true := by
  show ((r.value ||| 1 <<< bit) % 2 ^ 32).testBit bit = true
  rw [Nat.testBit_mod_two_pow, Nat.testBit_or, Nat.one_shiftLeft, Nat.testBit_two_pow]
  simp [h]

theorem clock_off_clears_bit (r : GateReg) (bit : Nat) :
    (FIMC_IS_CLOCK_OFF r bit).value.testBit bit = false := by
  show ((r.value &&& (2 ^ 32 - ((1 <<< bit) + 1))) % 2 ^ 32).testBit bit = false
  rw [Nat.testBit_mod_two_pow]
  by_cases h : bit < 32
  · have hlt : 2 ^ bit < 2 ^ 32 := Nat.pow_lt_pow_right (by decide) h
    rw [Nat.testBit_and, Nat.one_shiftLeft, Nat.testBit_two_pow_sub_succ hlt,
      Nat.testBit_two_pow]
    simp
  · simp [h]

/-! ### C4 -/

/-- C4: for every sequence of `clk_gate` on and off calls for one slot that
starts with the reference count at 0, the reference count is the number of on
calls minus the number of off calls; a call enables the gate
(`FIMC_IS_CLOCK_ON`, the gate bit is set) exactly when it takes the count from
0 to 1, disables it (`FIMC_IS_CLOCK_OFF`, the bit is cleared) exactly when it
takes the count from 1 back to 0, and otherwise does not touch the register;
two on calls give the count 2 and one register write. -/
theorem c4_clk_gate_refcount (clk_gate : fimc_is_clk_gate) (idx : Nat)
    (calls : List Bool) (h0 : clk_gate.refcnt idx = 0) (hbit : clk_gate.bit idx < 32) :
    (clk_gate_after clk_gate idx calls).refcnt idx
        = (calls.count true : Int) - (calls.count false : Int) ∧
    (∀ k, k < calls.length →
      ((clk_gate_after clk_gate idx (calls.take k)).refcnt idx = 0 ∧
        (clk_gate_after clk_gate idx (calls.take (k + 1))).refcnt idx = 1 →
          (clk_gate_after clk_gate idx (calls.take (k + 1))).regs
              = FIMC_IS_CLOCK_ON (clk_gate_after clk_gate idx (calls.take k)).regs
                  (clk_gate.bit idx) ∧
          (clk_gate_after clk_gate idx (calls.take (k + 1))).regs.value.testBit
              (clk_gate.bit idx) = true) ∧
      ((clk_gate_after clk_gate idx (calls.take k)).refcnt idx = 1 ∧
        (clk_gate_after clk_gate idx (calls.take (k + 1))).refcnt idx = 0 →
          (clk_gate_after clk_gate idx (calls.take (k + 1))).regs
              = FIMC_IS_CLOCK_OFF (clk_gate_after clk_gate idx (calls.take k)).regs
                  (clk_gate.bit idx) ∧
          (clk_gate_after clk_gate idx (calls.take (k + 1))).regs.value.testBit
              (clk_gate.bit idx) = false) ∧
      (¬ ((clk_gate_after clk_gate idx (calls.take k)).refcnt idx = 0 ∧
            (clk_gate_after clk_gate idx (calls.take (k + 1))).refcnt idx = 1) →
        ¬ ((clk_gate_after clk_gate idx (calls.take k)).refcnt idx = 1 ∧
            (clk_gate_after clk_gate idx (calls.take (k + 1))).refcnt idx = 0) →
          (clk_gate_after clk_gate idx (calls.take (k + 1))).regs
              = (clk_gate_after clk_gate idx (calls.take k)).regs)) ∧
    ((clk_gate_after clk_gate idx [true, true]).refcnt idx = 2 ∧
      (clk_gate_after clk_gate idx [true, true]).regs
          = FIMC_IS_CLOCK_ON clk_gate.regs (clk_gate.bit idx) ∧
      (clk_gate_after clk_gate idx [true, true]).regs.written.length
          = clk_gate.regs.written.length + 1) := by
  have hbits : ∀ cs, (clk_gate_after clk_gate idx cs).bit = clk_gate.bit := by
    intro cs
    induction cs using List.reverseRecOn with
    | nil => rfl
    | append_singleton cs c ih =>
      simp only [clk_gate_after, List.foldl_append, List.foldl_cons, List.foldl_nil] at ih ⊢
      rw [clk_gate_step_bit, ih]
  refine ⟨?_, ?_, ?_⟩
  · rw [clk_gate_after_refcnt, h0]; omega
  · intro k hk
    have hs := clk_gate_after_succ clk_gate idx calls k hk
    have hr := clk_gate_step_refcnt (clk_gate_after clk_gate idx (calls.take k)) idx
      (calls.get ⟨k, hk⟩)
    have hg := clk_gate_step_regs (clk_gate_after clk_gate idx (calls.take k)) idx
      (calls.get ⟨k, hk⟩)
    rw [← hs] at hr hg
    rw [hbits] at hg
    generalize clk_gate_after clk_gate idx (calls.take (k + 1)) = g1 at hr hg ⊢
    generalize clk_gate_after clk_gate idx (calls.take k) = g at hr hg ⊢
    generalize calls.get ⟨k, hk⟩ = b at hr hg
    refine ⟨?_, ?_, ?_⟩
    · rintro ⟨ha, hb⟩
      have hbt : b = true := by
        cases b
        · simp at hr; omega
        · rfl
      rw [hg, if_pos ⟨hbt, ha⟩]
      exact ⟨rfl, clock_on_sets_bit _ _ hbit⟩
    · rintro ⟨ha, hb⟩
      have hbf : b = false := by
        cases b
        · rfl
        · simp at hr; omega
      rw [hg, if_neg (by simp [hbf]), if_pos ⟨hbf, ha⟩]
      exact ⟨rfl, clock_off_clears_bit _ _⟩
    · intro hn1 hn2
      rw [hg]
      have h1 : ¬ (b = true ∧ g.refcnt idx = 0) := by
        rintro ⟨hb, ha⟩
        exact hn1 ⟨ha, by rw [hr, hb, ha]; rfl⟩
      have h2 : ¬ (b = false ∧ g.refcnt idx = 1) := by
        rintro ⟨hb, ha⟩
        exact hn2 ⟨ha, by rw [hr, hb, ha]; rfl⟩
      rw [if_neg h1, if_neg h2]
  · have e1 : clk_gate_after clk_gate idx [true, true]
        = fimc_is_hardware_clk_gate (fimc_is_hardware_clk_gate clk_gate idx true) idx true :=
      rfl
    have r1 := clk_gate_step_refcnt clk_gate idx true
    have r2 := clk_gate_step_refcnt (fimc_is_hardware_clk_gate clk_gate idx true) idx true
    have g1 := clk_gate_step_regs clk_gate idx true
    have g2 := clk_gate_step_regs (fimc_is_hardware_clk_gate clk_gate idx true) idx true
    rw [h0] at r1
    simp only [if_true] at r1 r2
    rw [r1] at r2 g2
    rw [if_pos ⟨rfl, h0⟩] at g1
    rw [if_neg (by simp), if_neg (by simp), g1] at g2
    rw [e1, r2, g2]
    refine ⟨by norm_num, rfl, ?_⟩
    simp [FIMC_IS_CLOCK_ON, __raw_writel]

/-- Witness of `c4_clk_gate_refcount`: the calls on, on, off, off for the
slot 0, whose gate bit is bit 3 of a register that holds 0. -/
theorem c4_clk_gate_refcount_witness :
    (clk_gate_after ⟨⟨0, []⟩, fun _ => 3, fun _ => 0⟩ 0 [true, true, false, false]).refcnt 0
      = (([true, true, false, false] : List Bool).count true : Int)
        - (([true, true, false, false] : List Bool).count false : Int) :=
  (c4_clk_gate_refcount ⟨⟨0, []⟩, fun _ => 3, fun _ => 0⟩ 0 [true, true, false, false]
    rfl (by decide)).1

/-! ### C5 -/

/-- C5: for every capability table, every unit and argument list, and every
operation slot of the table, each paired here with the member of
`struct fimc_is_hw_ip_ops` it names: `CALL_HW_OPS` returns 0 and leaves the
state untouched when the member is null, and otherwise returns exactly what
the stored operation returns when it is called with the unit and those
arguments. The fifteen pairs cover every slot. -/
theorem c5_call_hw_ops {H W : Type} (ops : fimc_is_hw_ip_ops H W) (hw : H)
    (args : List Nat) (w : W) :
    (∀ p ∈ [(HwOp.open_, ops.open_), (HwOp.init, ops.init), (HwOp.deinit, ops.deinit),
        (HwOp.close, ops.close), (HwOp.enable, ops.enable), (HwOp.disable, ops.disable),
        (HwOp.shot, ops.shot), (HwOp.set_param, ops.set_param),
        (HwOp.get_meta, ops.get_meta), (HwOp.frame_ndone, ops.frame_ndone),
        (HwOp.load_setfile, ops.load_setfile), (HwOp.apply_setfile, ops.apply_setfile),
        (HwOp.delete_setfile, ops.delete_setfile), (HwOp.size_dump, ops.size_dump),
        (HwOp.clk_gate, ops.clk_gate)],
      (p.2 = none → CALL_HW_OPS ops hw p.1 args w = (0, w)) ∧
      (∀ f, p.2 = some f → CALL_HW_OPS ops hw p.1 args w = f hw args w)) ∧
    (∀ op : HwOp, op ∈ [HwOp.open_, HwOp.init, HwOp.deinit, HwOp.close, HwOp.enable,
        HwOp.disable, HwOp.shot, HwOp.set_param, HwOp.get_meta, HwOp.frame_ndone,
        HwOp.load_setfile, HwOp.apply_setfile, HwOp.delete_setfile, HwOp.size_dump,
        HwOp.clk_gate]) := by
  constructor
  · intro p hp
    simp only [List.mem_cons, List.mem_singleton, List.not_mem_nil, or_false] at hp
    rcases hp with h | h | h | h | h | h | h | h | h | h | h | h | h | h | h <;>
      (subst h
       constructor
       · intro hn
         simp only [] at hn
         simp [CALL_HW_OPS, fimc_is_hw_ip_ops.slot, hn]
       · intro f hf
         simp only [] at hf
         simp [CALL_HW_OPS, fimc_is_hw_ip_ops.slot, hf])
  · intro op
    cases op <;> simp

/-- Witness of `c5_call_hw_ops`: a table whose only operation is `shot`, which
returns its first argument and counts its calls in the state. -/
theorem c5_call_hw_ops_witness :
    CALL_HW_OPS (H := Nat) (W := Nat)
        ⟨none, none, none, none, none, none, some (fun _ a w => (a.headD 0, w + 1)),
          none, none, none, none, none, none, none, none⟩ 1 HwOp.enable [5] 0 = (0, 0) ∧
    CALL_HW_OPS (H := Nat) (W := Nat)
        ⟨none, none, none, none, none, none, some (fun _ a w => (a.headD 0, w + 1)),
          none, none, none, none, none, none, none, none⟩ 1 HwOp.shot [5] 0 = (5, 1) :=
  ⟨((c5_call_hw_ops (H := Nat) (W := Nat)
      ⟨none, none, none, none, none, none, some (fun _ a w => (a.headD 0, w + 1)),
        none, none, none, none, none, none, none, none⟩ 1 [5] 0).1
      (HwOp.enable, none) (by simp)).1 rfl,
   ((c5_call_hw_ops (H := Nat) (W := Nat)
      ⟨none, none, none, none, none, none, some (fun _ a w => (a.headD 0, w + 1)),
        none, none, none, none, none, none, none, none⟩ 1 [5] 0).1
      (HwOp.shot, some (fun _ a w => (a.headD 0, w + 1))) (by simp)).2 _ rfl⟩

/-! ### Bug counter lemmas -/

theorem wrap_int_of_range (x : Int) (h0 : -2 ^ 31 ≤ x) (h1 : x < 2 ^ 31) :
    wrap_int x = x := by
  unfold wrap_int
  omega

theorem bug_count_after_from_zero (this : fimc_is_hardware) (count : Int)
    (h0 : this.bug_count = 0) :
    ∀ n : Nat, (n : Int) < 2 ^ 31 → (bug_count_after this count n).bug_count = n := by
  intro n
  induction n with
  | zero => intro _; simpa [bug_count_after] using h0
  | succ n ih =>
    intro hn
    have hn1 : (n : Int) < 2 ^ 31 := by push_cast at hn; omega
    simp only [bug_count_after, check_hw_bug_count, atomic_inc_return, ih hn1]
    rw [wrap_int_of_range _ (by omega) (by push_cast at hn; omega)]
    push_cast
    rfl

/-! ### C6 -/

/-- C6, as stated, fails at the end of the 32-bit range: from
`bug_count = INT_MAX` one invocation stores `INT_MIN`, not `bug_count + 1`,
and does not reach `BUG_ON(1)` for the threshold 5 although `bug_count + 1`
exceeds it; and with the threshold `INT_MAX` no invocation asserts, whatever
the state, so no violation number `count + 1` does. -/
theorem c6_counter_wraps_at_int_max :
    (check_hw_bug_count ⟨0, 2147483647, 0⟩ 5).1.bug_count = -2147483648 ∧
    (check_hw_bug_count ⟨0, 2147483647, 0⟩ 5).1.bug_count ≠ 2147483647 + 1 ∧
    (check_hw_bug_count ⟨0, 2147483647, 0⟩ 5).2 = false ∧
    (2147483647 + 1 : Int) > 5 ∧
    (∀ this : fimc_is_hardware, (check_hw_bug_count this 2147483647).2 = false) := by
  refine ⟨by decide, by decide, by decide, by decide, ?_⟩
  intro this
  simp only [check_hw_bug_count, atomic_inc_return, wrap_int, decide_eq_false_iff_not]
  omega

/-- C6 (amended): one invocation of `check_hw_bug_count` replaces `bug_count`
by its 32-bit increment (`bug_count + 1` whenever `bug_count` is below
`INT_MAX`), leaves the other counters alone and reaches `BUG_ON(1)` if and
only if the stored value is strictly greater than `count`; hence, starting
from `bug_count = 0` with a threshold `0 <= count < INT_MAX`, none of the
first `count` violations asserts and violation number `count + 1` does. -/
theorem c6_check_hw_bug_count :
    (∀ (this : fimc_is_hardware) (count : Int),
      (check_hw_bug_count this count).1
          = { this with bug_count := wrap_int (this.bug_count + 1) } ∧
      ((check_hw_bug_count this count).2 = true
          ↔ (check_hw_bug_count this count).1.bug_count > count)) ∧
    (∀ (this : fimc_is_hardware) (count : Int),
      -2 ^ 31 ≤ this.bug_count → this.bug_count < 2 ^ 31 - 1 →
        (check_hw_bug_count this count).1.bug_count = this.bug_count + 1) ∧
    (∀ (this : fimc_is_hardware) (count : Nat),
      this.bug_count = 0 → (count : Int) < 2 ^ 31 - 1 →
        (∀ n, n < count →
          (check_hw_bug_count (bug_count_after this count n) count).2 = false) ∧
        (check_hw_bug_count (bug_count_after this count count) count).2 = true) := by
  refine ⟨?_, ?_, ?_⟩
  · intro this count
    simp [check_hw_bug_count, atomic_inc_return]
  · intro this count hlo hhi
    simp only [check_hw_bug_count, atomic_inc_return]
    exact wrap_int_of_range _ (by omega) (by omega)
  · intro this count h0 hc
    constructor
    · intro n hn
      have hb := bug_count_after_from_zero this count h0 n (by omega)
      simp only [check_hw_bug_count, atomic_inc_return, hb]
      rw [wrap_int_of_range _ (by omega) (by omega)]
      simp only [decide_eq_false_iff_not]
      omega
    · have hb := bug_count_after_from_zero this count h0 count (by omega)
      simp only [check_hw_bug_count, atomic_inc_return, hb]
      rw [wrap_int_of_range _ (by omega) (by omega)]
      simp

/-- Witness of `c6_check_hw_bug_count`: threshold 2 from a zeroed counter; the
first two violations pass, the third asserts. -/
theorem c6_check_hw_bug_count_witness :
    (check_hw_bug_count ⟨1, 0, 0⟩ 2).1.bug_count = 0 + 1 ∧
    ((∀ n, n < 2 →
        (check_hw_bug_count (bug_count_after ⟨1, 0, 0⟩ ((2 : Nat) : Int) n)
          ((2 : Nat) : Int)).2 = false) ∧
      (check_hw_bug_count (bug_count_after ⟨1, 0, 0⟩ ((2 : Nat) : Int) 2)
          ((2 : Nat) : Int)).2 = true) :=
  ⟨c6_check_hw_bug_count.2.1 ⟨1, 0, 0⟩ 2 (by decide) (by decide),
   c6_check_hw_bug_count.2.2 ⟨1, 0, 0⟩ 2 rfl (by decide)⟩

/-! ### C7 -/

/-- C7: enqueue appends the frame at the tail of the normal queue when the
normal queue holds fewer than `FIMC_IS_MAX_HW_FRAME` (20) frames and otherwise
routes it to the tail of the late queue; the late queue never grows beyond
`FIMC_IS_MAX_HW_FRAME_LATE` (5) frames: with both queues full the frame is
refused with `ResourceError` and both queues stay as they are. -/
theorem c7_frame_enqueue (q : FrameQueue) (frame : fimc_is_frame) :
    (q.framemgr.length < FIMC_IS_MAX_HW_FRAME →
      frame_enqueue q frame
        = (.ok .normal, ⟨q.framemgr ++ [frame], q.framemgr_late⟩)) ∧
    (FIMC_IS_MAX_HW_FRAME ≤ q.framemgr.length →
      q.framemgr_late.length < FIMC_IS_MAX_HW_FRAME_LATE →
      frame_enqueue q frame
        = (.ok .late, ⟨q.framemgr, q.framemgr_late ++ [frame]⟩)) ∧
    (FIMC_IS_MAX_HW_FRAME ≤ q.framemgr.length →
      FIMC_IS_MAX_HW_FRAME_LATE ≤ q.framemgr_late.length →
      frame_enqueue q frame = (.error .ResourceError, q)) ∧
    (q.framemgr_late.length ≤ FIMC_IS_MAX_HW_FRAME_LATE →
      (frame_enqueue q frame).2.framemgr_late.length ≤ FIMC_IS_MAX_HW_FRAME_LATE) := by
  refine ⟨?_, ?_, ?_, ?_⟩
  · intro h
    simp [frame_enqueue, h]
  · intro h1 h2
    simp [frame_enqueue, Nat.not_lt.mpr h1, h2]
  · intro h1 h2
    simp [frame_enqueue, Nat.not_lt.mpr h1, Nat.not_lt.mpr h2]
  · intro h
    unfold frame_enqueue
    split
    · exact h
    · split
      · simp only [List.length_append, List.length_singleton]
        omega
      · exact h

/-- Witness of `c7_frame_enqueue`: an empty queue takes frame 1 in the normal
queue; with 20 frames queued frame 21 goes to the late queue. -/
theorem c7_frame_enqueue_witness :
    frame_enqueue ⟨[], []⟩ ⟨1, 0, 0⟩ = (.ok .normal, ⟨[] ++ [⟨1, 0, 0⟩], []⟩) ∧
    frame_enqueue ⟨List.replicate 20 ⟨0, 0, 0⟩, []⟩ ⟨21, 0, 0⟩
      = (.ok .late, ⟨List.replicate 20 ⟨0, 0, 0⟩, [] ++ [⟨21, 0, 0⟩]⟩) :=
  ⟨(c7_frame_enqueue ⟨[], []⟩ ⟨1, 0, 0⟩).1 (by decide),
   (c7_frame_enqueue ⟨List.replicate 20 ⟨0, 0, 0⟩, []⟩ ⟨21, 0, 0⟩).2.1
      (by decide) (by decide)⟩

/-! ### C8 -/

/-- C8: for every setfile blob whose leading 32-bit `magic_number` is neither
the version-2 nor the version-3 magic constant, parsing the header fails with
`CorruptSetfile` and yields no processed header. -/
theorem c8_other_magic_is_corrupt (magic_v2 magic_v3 addr : Nat) (blob : List Nat)
    (magic : Nat) (hm : read_u32 blob 0 = some magic)
    (h2 : magic ≠ magic_v2) (h3 : magic ≠ magic_v3) :
    parse_setfile_header magic_v2 magic_v3 addr blob = .error .CorruptSetfile ∧
    ∀ header, parse_setfile_header magic_v2 magic_v3 addr blob ≠ .ok header := by
  have h : parse_setfile_header magic_v2 magic_v3 addr blob = .error .CorruptSetfile := by
    simp [parse_setfile_header, hm, h2, h3]
  refine ⟨h, ?_⟩
  intro header hh
  rw [h] at hh
  cases hh

/-- Witness of `c8_other_magic_is_corrupt`: a 16-byte blob whose magic is
0x12345670, checked against `SET_FILE_MAGIC_NUMBER - 1` and
`SET_FILE_MAGIC_NUMBER`. -/
theorem c8_other_magic_is_corrupt_witness :
    parse_setfile_header (SET_FILE_MAGIC_NUMBER - 1) SET_FILE_MAGIC_NUMBER 4096
      [0x70, 0x56, 0x34, 0x12, 1, 0, 0, 0, 1, 0, 0, 0, 28, 0, 0, 0]
      = .error .CorruptSetfile :=
  (c8_other_magic_is_corrupt (SET_FILE_MAGIC_NUMBER - 1) SET_FILE_MAGIC_NUMBER 4096
    [0x70, 0x56, 0x34, 0x12, 1, 0, 0, 0, 1, 0, 0, 0, 28, 0, 0, 0] 0x12345670
    (by decide) (by decide) (by decide)).1

/-! ### C9 -/

/-- C9: in the packed file-mapped header the magic number is the 32-bit word
at offset 0 in both versions (and in the union, whose first member it is); the
version-2 header is 16 bytes with `scenario_num`, `subip_num`,
`setfile_offset` at offsets 4, 8, 12; the version-3 header is 28 bytes and is
the version-2 header with `designed_bit` (offset 4), `version_code` (offset 8,
4 bytes) and `revision_code` (offset 12, 4 bytes) inserted after the magic, so
that `scenario_num`, `subip_num`, `setfile_offset` sit at 16, 20, 24. -/
theorem c9_packed_header_layout :
    (packed_offsetof __setfile_header_ver_2 .magic_number = some 0 ∧
      packed_offsetof __setfile_header_ver_3 .magic_number = some 0 ∧
      __setfile_header_ver_2.head? = some ⟨.magic_number, .u32⟩ ∧
      __setfile_header_ver_3.head? = some ⟨.magic_number, .u32⟩ ∧
      __setfile_header.head? = some [⟨.magic_number, .u32⟩]) ∧
    (packed_sizeof __setfile_header_ver_2 = 16 ∧
      packed_offsetof __setfile_header_ver_2 .scenario_num = some 4 ∧
      packed_offsetof __setfile_header_ver_2 .subip_num = some 8 ∧
      packed_offsetof __setfile_header_ver_2 .setfile_offset = some 12) ∧
    (packed_sizeof __setfile_header_ver_3 = 28 ∧
      __setfile_header_ver_3
        = __setfile_header_ver_2.take 1
          ++ [⟨.designed_bit, .u32⟩, ⟨.version_code, .chars 4⟩, ⟨.revision_code, .chars 4⟩]
          ++ __setfile_header_ver_2.drop 1 ∧
      packed_offsetof __setfile_header_ver_3 .designed_bit = some 4 ∧
      packed_offsetof __setfile_header_ver_3 .version_code = some 8 ∧
      packed_offsetof __setfile_header_ver_3 .revision_code = some 12 ∧
      packed_offsetof __setfile_header_ver_3 .scenario_num = some 16 ∧
      packed_offsetof __setfile_header_ver_3 .subip_num = some 20 ∧
      packed_offsetof __setfile_header_ver_3 .setfile_offset = some 24) := by
  decide

end FimcIs

namespace GpuCooling

/-! ### The two loops of `get_property` in terms of the distinct runs -/

theorem valid_entries_ne_invalid (tbl : List cpufreq_frequency_table) :
    ∀ f ∈ valid_entries tbl, f ≠ CPUFREQ_ENTRY_INVALID := by
  induction tbl with
  | nil => intro f hf; simp [valid_entries] at hf
  | cons pos rest ih =>
    intro f hf
    unfold valid_entries at hf
    split at hf
    · simp at hf
    · split at hf
      · exact ih f hf
      · rename_i _ hne
        rcases List.mem_cons.mp hf with h | h
        · rw [h]; exact hne
        · exact ih f h

theorem valid_entries_length_le (tbl : List cpufreq_frequency_table) :
    (valid_entries tbl).length ≤ tbl.length := by
  induction tbl with
  | nil => simp [valid_entries]
  | cons pos rest ih =>
    unfold valid_entries
    split
    · simp
    · split
      · simp only [List.length_cons]; omega
      · simp only [List.length_cons]; omega

theorem valid_entries_mem (tbl : List cpufreq_frequency_table) :
    ∀ f ∈ valid_entries tbl, ∃ pos ∈ tbl, pos.frequency = f := by
  induction tbl with
  | nil => intro f hf; simp [valid_entries] at hf
  | cons pos rest ih =>
    intro f hf
    unfold valid_entries at hf
    split at hf
    · simp at hf
    · split at hf
      · obtain ⟨p, hp, hpf⟩ := ih f hf
        exact ⟨p, List.mem_cons_of_mem _ hp, hpf⟩
      · rcases List.mem_cons.mp hf with h | h
        · exact ⟨pos, List.mem_cons_self _ _, h.symm⟩
        · obtain ⟨p, hp, hpf⟩ := ih f h
          exact ⟨p, List.mem_cons_of_mem _ hp, hpf⟩

theorem distinct_runs_length_le (es : List Nat) :
    ∀ freq, (distinct_runs freq es).length ≤ es.length := by
  induction es with
  | nil => intro freq; simp [distinct_runs]
  | cons f rest ih =>
    intro freq
    unfold distinct_runs
    split
    · have := ih freq
      simp only [List.length_cons]; omega
    · have := ih f
      simp only [List.length_cons]; omega

theorem distinct_runs_mem (es : List Nat) :
    ∀ freq, ∀ x ∈ distinct_runs freq es, x ∈ es := by
  induction es with
  | nil => intro freq x hx; simp [distinct_runs] at hx
  | cons f rest ih =>
    intro freq x hx
    unfold distinct_runs at hx
    split at hx
    · exact List.mem_cons_of_mem _ (ih freq x hx)
    · rcases List.mem_cons.mp hx with h | h
      · rw [h]; exact List.mem_cons_self _ _
      · exact List.mem_cons_of_mem _ (ih f x h)

theorem count_max_level (es : List Nat) :
    ∀ st : CountState, (get_property_count st es).max_level
      = st.max_level + (distinct_runs st.freq es).length := by
  induction es with
  | nil => intro st; simp [get_property_count, distinct_runs]
  | cons f rest ih =>
    intro st
    unfold get_property_count distinct_runs
    by_cases h : st.freq = f
    · simp only [h, if_true]
      have := ih st
      rw [h] at this
      exact this
    · simp only [h, if_false]
      rw [ih]
      simp only [List.length_cons]
      omega

theorem count_freq (es : List Nat) :
    ∀ st : CountState, (get_property_count st es).freq
      = ((distinct_runs st.freq es).getLast?).getD st.freq := by
  induction es with
  | nil => intro st; simp [get_property_count, distinct_runs]
  | cons f rest ih =>
    intro st
    unfold get_property_count distinct_runs
    by_cases h : st.freq = f
    · simp only [h, if_true]
      have := ih st
      rw [h] at this
      exact this
    · simp only [h, if_false]
      rw [ih]
      cases hr : distinct_runs f rest with
      | nil => simp
      | cons a l =>
        rw [List.getLast?_cons_cons, List.getLast?_eq_getLast (a :: l) (by simp)]
        rfl

theorem find_freq (es : List Nat) (input : Nat) (descend : Int) (max_level level : Nat) :
    ∀ freq i, i ≤ level →
      get_property_find .GET_FREQ input descend max_level level freq i es
        = (distinct_runs freq es).get? (level - i) := by
  induction es with
  | nil => intro freq i _; simp [get_property_find, distinct_runs]
  | cons f rest ih =>
    intro freq i hi
    unfold get_property_find distinct_runs
    by_cases h : freq = f
    · simp only [h, if_true]
      have := ih freq i hi
      rw [h] at this
      exact this
    · simp only [h, if_false]
      by_cases hl : level = i
      · simp [hl]
      · have hlt : i + 1 ≤ level := by omega
        have e : level - i = (level - (i + 1)) + 1 := by omega
        simp only [reduceCtorEq, false_and, if_false, hl, and_false]
        rw [ih f (i + 1) hlt, e, List.get?_cons_succ]

theorem find_level (es : List Nat) (input x : Nat) (descend : Int)
    (max_level level : Nat) (hx : input % 2 ^ 32 = x) :
    ∀ freq i j, (distinct_runs freq es).Nodup →
      (distinct_runs freq es).get? j = some x →
      get_property_find .GET_LEVEL input descend max_level level freq i es
        = some ((if descend ≠ 0 then i + j else ulong_sub max_level (i + j)) % 2 ^ 32) := by
  induction es with
  | nil => intro freq i j _ hj; simp [distinct_runs] at hj
  | cons f rest ih =>
    intro freq i j hnd hj
    unfold get_property_find
    unfold distinct_runs at hnd hj
    by_cases h : freq = f
    · simp only [h, if_true] at hnd hj ⊢
      have := ih f i j hnd hj
      exact this
    · simp only [h, if_false] at hnd hj ⊢
      cases j with
      | zero =>
        simp only [List.get?_cons_zero, Option.some.injEq] at hj
        rw [if_pos ⟨trivial, hx.trans hj.symm⟩]
        rfl
      | succ j =>
        simp only [List.get?_cons_succ] at hj
        have hmem : x ∈ distinct_runs f rest := List.get?_mem hj
        have hne : ¬ (x = f) := by
          intro hxf
          rw [hxf] at hmem
          exact (List.nodup_cons.mp hnd).1 hmem
        simp only [hx, hne, and_false, if_false, reduceCtorEq, false_and]
        rw [ih f (i + 1) j (List.nodup_cons.mp hnd).2 hj]
        have e : i + 1 + j = i + (j + 1) := by omega
        rw [e]

/-- The runs of a list sorted by `le` are strictly sorted by `lt`. -/
theorem distinct_runs_pairwise (lt le : Nat → Nat → Prop)
    (hle : ∀ a b, le a b → a ≠ b → lt a b) (htr : ∀ a b c, lt a b → lt b c → lt a c)
    (es : List Nat) :
    ∀ freq, es.Pairwise le → (∀ x ∈ es, le freq x) →
      (∀ y ∈ distinct_runs freq es, lt freq y) ∧ (distinct_runs freq es).Pairwise lt := by
  induction es with
  | nil => intro freq _ _; simp [distinct_runs]
  | cons f rest ih =>
    intro freq hp hall
    have hp' := List.pairwise_cons.mp hp
    unfold distinct_runs
    by_cases h : freq = f
    · simp only [h, if_true]
      exact ih f hp'.2 hp'.1
    · simp only [h, if_false]
      have hlt : lt freq f := hle freq f (hall f (List.mem_cons_self _ _)) h
      have hrec := ih f hp'.2 hp'.1
      refine ⟨?_, List.pairwise_cons.mpr ⟨hrec.1, hrec.2⟩⟩
      intro y hy
      rcases List.mem_cons.mp hy with e | e
      · rw [e]; exact hlt
      · exact htr _ _ _ hlt (hrec.1 y e)

/-- For a sorted list of valid frequencies the first loop counts the distinct
runs, the runs are free of duplicates, and the second loop, which starts from
the last frequency of the first loop, walks the same runs or none at all. -/
theorem runs_of_sorted (es : List Nat) (hne : ∀ f ∈ es, f ≠ CPUFREQ_ENTRY_INVALID)
    (hs : es.Pairwise (fun a b => a ≤ b) ∨ es.Pairwise (fun a b => a ≥ b)) :
    (get_property_count ⟨CPUFREQ_ENTRY_INVALID, -1, 0⟩ es).max_level
        = (distinct_runs CPUFREQ_ENTRY_INVALID es).length ∧
    (distinct_runs CPUFREQ_ENTRY_INVALID es).Nodup ∧
    (distinct_runs (get_property_count ⟨CPUFREQ_ENTRY_INVALID, -1, 0⟩ es).freq es
        = distinct_runs CPUFREQ_ENTRY_INVALID es ∨
      distinct_runs (get_property_count ⟨CPUFREQ_ENTRY_INVALID, -1, 0⟩ es).freq es = []) := by
  refine ⟨by rw [count_max_level]; simp, ?_⟩
  cases es with
  | nil => simp [distinct_runs]
  | cons e0 rest =>
    have h0 : ¬ (CPUFREQ_ENTRY_INVALID = e0) :=
      fun h => hne e0 (List.mem_cons_self _ _) h.symm
    have hR : distinct_runs CPUFREQ_ENTRY_INVALID (e0 :: rest)
        = e0 :: distinct_runs e0 rest := by
      rw [distinct_runs, if_neg h0]
    have hnd : (e0 :: distinct_runs e0 rest).Nodup := by
      rcases hs with hs | hs
      · have hp := List.pairwise_cons.mp hs
        have := distinct_runs_pairwise (fun a b => a < b) (fun a b => a ≤ b)
          (fun a b h1 h2 => Nat.lt_of_le_of_ne h1 h2) (fun a b c h1 h2 => Nat.lt_trans h1 h2)
          rest e0 hp.2 hp.1
        have hpw : (e0 :: distinct_runs e0 rest).Pairwise (fun a b => a < b) :=
          List.pairwise_cons.mpr ⟨this.1, this.2⟩
        exact hpw.imp (fun h => Nat.ne_of_lt h)
      · have hp := List.pairwise_cons.mp hs
        have := distinct_runs_pairwise (fun a b => a > b) (fun a b => a ≥ b)
          (fun a b h1 h2 => Nat.lt_of_le_of_ne h1 (Ne.symm h2))
          (fun a b c h1 h2 => Nat.lt_trans h2 h1) rest e0 hp.2 hp.1
        have hpw : (e0 :: distinct_runs e0 rest).Pairwise (fun a b => a > b) :=
          List.pairwise_cons.mpr ⟨this.1, this.2⟩
        exact hpw.imp (fun h => Nat.ne_of_gt h)
    rw [hR]
    refine ⟨hnd, ?_⟩
    rw [count_freq, hR]
    simp only []
    by_cases hlast : ((e0 :: distinct_runs e0 rest).getLast?).getD CPUFREQ_ENTRY_INVALID = e0
    · right
      rw [hlast, distinct_runs, if_pos rfl]
      cases hr : distinct_runs e0 rest with
      | nil => rfl
      | cons a l =>
        exfalso
        rw [hr] at hlast hnd
        rw [List.getLast?_cons_cons, List.getLast?_eq_getLast (a :: l) (by simp)] at hlast
        simp only [Option.getD_some] at hlast
        have hmem : e0 ∈ a :: l := by
          rw [← hlast]
          exact List.getLast_mem _
        exact (List.nodup_cons.mp hnd).1 hmem
    · left
      rw [distinct_runs, if_neg hlast]

/-- Result of `get_property` for `GET_LEVEL` and `GET_FREQ` on a table with a valid
entry: the result of the second loop. -/
theorem get_property_find_eq (tbl : List cpufreq_frequency_table) (gpu input out : Nat)
    (property : gpufreq_cooling_property) (hp : property ≠ .GET_MAXL)
    (hml : (get_property_count ⟨CPUFREQ_ENTRY_INVALID, -1, 0⟩
      (valid_entries tbl)).max_level ≠ 0) :
    get_property (some tbl) gpu input (some out) property
      = match get_property_find property input
            (get_property_count ⟨CPUFREQ_ENTRY_INVALID, -1, 0⟩ (valid_entries tbl)).descend
            ((get_property_count ⟨CPUFREQ_ENTRY_INVALID, -1, 0⟩
              (valid_entries tbl)).max_level - 1)
            (if property = .GET_FREQ then
              (if (get_property_count ⟨CPUFREQ_ENTRY_INVALID, -1, 0⟩
                    (valid_entries tbl)).descend ≠ 0 then input
               else ulong_sub ((get_property_count ⟨CPUFREQ_ENTRY_INVALID, -1, 0⟩
                    (valid_entries tbl)).max_level - 1) input)
             else 0)
            (get_property_count ⟨CPUFREQ_ENTRY_INVALID, -1, 0⟩ (valid_entries tbl)).freq 0
            (valid_entries tbl) with
        | some v => (0, some v)
        | none => (-EINVAL, some out) := by
  simp only [get_property, hml, hp, if_false]

/-- Without a table, or without a valid entry, `get_property` fails and leaves
the output cell alone. -/
theorem get_property_no_entry (table : Option (List cpufreq_frequency_table))
    (gpu input out : Nat) (property : gpufreq_cooling_property)
    (h : ∀ tbl ∈ table, (get_property_count ⟨CPUFREQ_ENTRY_INVALID, -1, 0⟩
      (valid_entries tbl)).max_level = 0) :
    get_property table gpu input (some out) property = (-EINVAL, some out) := by
  cases table with
  | none => rfl
  | some tbl =>
    have := h tbl rfl
    simp only [get_property, this, if_true]

/-! ### C10 -/

/-- C10: for every GPU frequency table (of fewer than `2 ^ 31` entries with
32-bit frequencies) whose valid entries are sorted in one direction, ascending
or descending, and every cooling level `level`: if
`gpufreq_cooling_get_freq(level)` returns a frequency other than
`THERMAL_CFREQ_INVALID`, then `gpufreq_cooling_get_level` of that frequency
returns `level`. -/
theorem c10_get_level_of_get_freq (table : Option (List cpufreq_frequency_table))
    (cfreq_invalid gpu val level : Nat)
    (hlen : ∀ tbl ∈ table, tbl.length < 2 ^ 31)
    (hu32 : ∀ tbl ∈ table, ∀ pos ∈ tbl, pos.frequency < 2 ^ 32)
    (hlevel : level < 2 ^ 64)
    (hsorted : ∀ tbl ∈ table, (valid_entries tbl).Pairwise (fun a b => a ≤ b) ∨
      (valid_entries tbl).Pairwise (fun a b => a ≥ b))
    (hf : gpufreq_cooling_get_freq table cfreq_invalid gpu level ≠ cfreq_invalid) :
    gpufreq_cooling_get_level table val gpu
      (gpufreq_cooling_get_freq table cfreq_invalid gpu level) = level := by
  cases table with
  | none =>
    exfalso
    apply hf
    simp [gpufreq_cooling_get_freq, get_property, EINVAL]
  | some tbl =>
    have hlen' := hlen tbl rfl
    have hkey := runs_of_sorted (valid_entries tbl) (valid_entries_ne_invalid tbl)
      (hsorted tbl rfl)
    obtain ⟨hmax, hnd, hruns⟩ := hkey
    by_cases hml : (get_property_count ⟨CPUFREQ_ENTRY_INVALID, -1, 0⟩
        (valid_entries tbl)).max_level = 0
    · exfalso
      apply hf
      have := get_property_no_entry (some tbl) gpu level 0 .GET_FREQ
        (by intro t ht; cases ht; exact hml)
      simp [gpufreq_cooling_get_freq, this, EINVAL]
    · have hF := get_property_find_eq tbl gpu level 0 .GET_FREQ (by decide) hml
      rw [if_pos rfl, find_freq _ _ _ _ _ _ 0 (Nat.zero_le _), Nat.sub_zero] at hF
      generalize hst : get_property_count ⟨CPUFREQ_ENTRY_INVALID, -1, 0⟩
        (valid_entries tbl) = st at hmax hruns hml hF
      generalize hlv : (if st.descend ≠ 0 then level
        else ulong_sub (st.max_level - 1) level) = lvl at hF
      cases hget : (distinct_runs st.freq (valid_entries tbl)).get? lvl with
      | none =>
        exfalso
        apply hf
        rw [hget] at hF
        simp [gpufreq_cooling_get_freq, hF, EINVAL]
      | some v =>
        rw [hget] at hF
        have hfreq : gpufreq_cooling_get_freq (some tbl) cfreq_invalid gpu level = v := by
          simp [gpufreq_cooling_get_freq, hF]
        rw [hfreq]
        have hR : distinct_runs st.freq (valid_entries tbl)
            = distinct_runs CPUFREQ_ENTRY_INVALID (valid_entries tbl) := by
          rcases hruns with h | h
          · exact h
          · rw [h] at hget; simp at hget
        have hlt : lvl < (distinct_runs st.freq (valid_entries tbl)).length := by
          rcases List.get?_eq_some.mp hget with ⟨h, _⟩
          exact h
        have hvmem : v ∈ valid_entries tbl :=
          distinct_runs_mem _ _ v (List.get?_mem hget)
        have hv32 : v < 2 ^ 32 := by
          obtain ⟨pos, hpos, hpf⟩ := valid_entries_mem tbl v hvmem
          rw [← hpf]
          exact hu32 tbl rfl pos hpos
        have hmod : v % 2 ^ 32 % 2 ^ 32 = v := by
          rw [Nat.mod_mod, Nat.mod_eq_of_lt hv32]
        have hL := get_property_find_eq tbl gpu (v % 2 ^ 32) val .GET_LEVEL (by decide)
          (by rw [hst]; exact hml)
        rw [hst, if_neg (by decide)] at hL
        rw [find_level (valid_entries tbl) (v % 2 ^ 32) v st.descend (st.max_level - 1) 0
          hmod st.freq 0 lvl (by rw [hR]; exact hnd) hget] at hL
        have hrl := distinct_runs_length_le (valid_entries tbl) CPUFREQ_ENTRY_INVALID
        have hvl := valid_entries_length_le tbl
        rw [hR, ← hmax] at hlt
        have hres : gpufreq_cooling_get_level (some tbl) val gpu v
            = (if st.descend ≠ 0 then 0 + lvl else ulong_sub (st.max_level - 1) (0 + lvl))
                % 2 ^ 32 := by
          simp only [gpufreq_cooling_get_level, hL]
          simp
        rw [hres]
        rw [← hmax] at hrl
        by_cases hd : st.descend ≠ 0
        · rw [if_pos hd] at hlv ⊢
          subst hlv
          omega
        · rw [if_neg hd] at hlv ⊢
          unfold ulong_sub at hlv ⊢
          omega

/-- Witness of `c10_get_level_of_get_freq`: the ascending table 100, 100, 200,
300 (with an invalid entry and the end marker) and level 2, whose frequency
is 100. -/
theorem c10_get_level_of_get_freq_witness :
    gpufreq_cooling_get_level
      (some [⟨0, 0, 100⟩, ⟨0, 1, 100⟩, ⟨0, 2, 4294967295⟩, ⟨0, 3, 200⟩, ⟨0, 4, 300⟩,
        ⟨0, 5, 4294967294⟩]) 7 0
      (gpufreq_cooling_get_freq
        (some [⟨0, 0, 100⟩, ⟨0, 1, 100⟩, ⟨0, 2, 4294967295⟩, ⟨0, 3, 200⟩, ⟨0, 4, 300⟩,
          ⟨0, 5, 4294967294⟩]) 4294967295 0 2) = 2 :=
  c10_get_level_of_get_freq
    (some [⟨0, 0, 100⟩, ⟨0, 1, 100⟩, ⟨0, 2, 4294967295⟩, ⟨0, 3, 200⟩, ⟨0, 4, 300⟩,
      ⟨0, 5, 4294967294⟩]) 4294967295 0 7 2
    (by intro tbl h; cases h; decide)
    (by intro tbl h; cases h; decide)
    (by decide)
    (by intro tbl h; cases h; left; decide)
    (by decide)

/-! ### C11 -/

/-- C11 fails on a table with a single frequency level: 300000 is the
frequency of the only valid entry, yet `gpufreq_cooling_get_level` returns
`THERMAL_CSTATE_INVALID` for it, because the second loop of `get_property`
starts with `freq` still holding that frequency and skips the entry as a
duplicate. -/
theorem c11_single_level_not_matched (val : Nat) :
    300000 ∈ valid_entries [⟨0, 0, 300000⟩, ⟨0, 1, CPUFREQ_TABLE_END⟩] ∧
    gpufreq_cooling_get_level (some [⟨0, 0, 300000⟩, ⟨0, 1, CPUFREQ_TABLE_END⟩]) val 0 300000
      = THERMAL_CSTATE_INVALID := by
  constructor
  · decide
  · rfl

/-! ### C12 -/

/-- C12 fails on a table with a single frequency level: the maximum cooling
state is 0 and `gpufreq_get_max_state` returns 0, but `*state` keeps its prior
content, because the store is guarded by `count > 0`. -/
theorem c12_single_level_state_not_written (state : Nat) :
    max_cooling_level [⟨0, 0, 300000⟩, ⟨0, 1, CPUFREQ_TABLE_END⟩] = 0 ∧
    gpufreq_get_max_state (some [⟨0, 0, 300000⟩, ⟨0, 1, CPUFREQ_TABLE_END⟩]) state
      = (0, state) := by
  constructor
  · decide
  · rfl

/-! ### Cooling levels and the runs of `get_property` -/

theorem distinct_runs_cons_eq_destutter' (es : List Nat) :
    ∀ f, f :: distinct_runs f es = List.destutter' (fun a b => a ≠ b) f es := by
  induction es with
  | nil => intro f; rfl
  | cons e rest ih =>
    intro f
    by_cases h : f = e
    · rw [distinct_runs, if_pos h, List.destutter'_cons_neg _ (by simpa using h)]
      exact ih f
    · rw [distinct_runs, if_neg h, List.destutter'_cons_pos _ h, ih e]

/-- The runs counted by the first loop are the frequency levels of the table. -/
theorem distinct_runs_eq_cooling_levels (tbl : List cpufreq_frequency_table) :
    distinct_runs CPUFREQ_ENTRY_INVALID (valid_entries tbl) = cooling_levels tbl := by
  unfold cooling_levels
  cases h : valid_entries tbl with
  | nil => rfl
  | cons e rest =>
    have hne : ¬ (CPUFREQ_ENTRY_INVALID = e) := by
      intro he
      have := valid_entries_ne_invalid tbl e (by rw [h]; exact List.mem_cons_self _ _)
      exact this he.symm
    rw [distinct_runs, if_neg hne, List.destutter_cons']
    exact distinct_runs_cons_eq_destutter' rest e

/-- Whatever frequency the second loop starts from, it sees at most the runs
that the first loop counted. -/
theorem distinct_runs_length_le_first (es : List Nat)
    (hne : ∀ e ∈ es, e ≠ CPUFREQ_ENTRY_INVALID) (f : Nat) :
    (distinct_runs f es).length ≤ (distinct_runs CPUFREQ_ENTRY_INVALID es).length := by
  cases es with
  | nil => simp [distinct_runs]
  | cons e rest =>
    have h0 : ¬ (CPUFREQ_ENTRY_INVALID = e) :=
      fun h => hne e (List.mem_cons_self _ _) h.symm
    rw [distinct_runs, distinct_runs, if_neg h0]
    by_cases h : f = e
    · rw [if_pos h, h]
      simp
    · rw [if_neg h]

/-! ### C14 -/

/-- C14: for every GPU frequency table with at least one valid entry (sorted
or not, so in particular ascending or descending) and every level strictly
greater than the maximum cooling level, up to the largest `unsigned long`,
`gpufreq_cooling_get_freq` returns `THERMAL_CFREQ_INVALID`; in the ascending
case `max_level - input` wraps modulo `2 ^ 64` to a value beyond the levels. -/
theorem c14_get_freq_beyond_max_level (tbl : List cpufreq_frequency_table)
    (cfreq_invalid gpu level : Nat)
    (_hlen : tbl.length < 2 ^ 31)
    (hvalid : valid_entries tbl ≠ [])
    (hlevel : level < 2 ^ 64)
    (hmax : max_cooling_level tbl < level) :
    gpufreq_cooling_get_freq (some tbl) cfreq_invalid gpu level = cfreq_invalid := by
  have hml0 := count_max_level (valid_entries tbl) ⟨CPUFREQ_ENTRY_INVALID, -1, 0⟩
  simp only [Nat.zero_add] at hml0
  rw [distinct_runs_eq_cooling_levels] at hml0
  have hpos : 0 < (cooling_levels tbl).length := by
    rw [List.length_pos]
    unfold cooling_levels
    intro h
    exact hvalid ((List.destutter_eq_nil _).mp h)
  have hml : (get_property_count ⟨CPUFREQ_ENTRY_INVALID, -1, 0⟩
      (valid_entries tbl)).max_level ≠ 0 := by omega
  have hF := get_property_find_eq tbl gpu level 0 .GET_FREQ (by decide) hml
  rw [if_pos rfl, find_freq _ _ _ _ _ _ 0 (Nat.zero_le _), Nat.sub_zero] at hF
  have hle := distinct_runs_length_le_first (valid_entries tbl)
    (valid_entries_ne_invalid tbl)
    (get_property_count ⟨CPUFREQ_ENTRY_INVALID, -1, 0⟩ (valid_entries tbl)).freq
  rw [distinct_runs_eq_cooling_levels] at hle
  unfold max_cooling_level at hmax
  generalize get_property_count ⟨CPUFREQ_ENTRY_INVALID, -1, 0⟩ (valid_entries tbl) = st
    at hml0 hml hF hle
  have hnone : (distinct_runs st.freq (valid_entries tbl)).get?
      (if st.descend ≠ 0 then level else ulong_sub (st.max_level - 1) level) = none := by
    rw [List.get?_eq_none]
    by_cases hd : st.descend ≠ 0
    · rw [if_pos hd]
      omega
    · rw [if_neg hd]
      unfold ulong_sub
      omega
  rw [hnone] at hF
  simp only [gpufreq_cooling_get_freq, hF]
  simp [EINVAL]

/-- Witness of `c14_get_freq_beyond_max_level`: the ascending table 100000,
200000, 300000 (maximum level 2) and the largest `unsigned long` as level. -/
theorem c14_get_freq_beyond_max_level_witness :
    gpufreq_cooling_get_freq
      (some [⟨0, 0, 100000⟩, ⟨0, 1, 200000⟩, ⟨0, 2, 300000⟩, ⟨0, 3, CPUFREQ_TABLE_END⟩])
      4294967295 0 18446744073709551615 = 4294967295 :=
  c14_get_freq_beyond_max_level
    [⟨0, 0, 100000⟩, ⟨0, 1, 200000⟩, ⟨0, 2, 300000⟩, ⟨0, 3, CPUFREQ_TABLE_END⟩]
    4294967295 0 18446744073709551615 (by decide) (by decide) (by decide) (by decide)

/-! ### C13 -/

/-- C13, as stated, fails: with the table 300000, 200000, 100000 the state 5
has no frequency, yet a device whose current state is 5 answers a request for
state 5 with 0. -/
theorem c13_same_state_not_rejected :
    gpufreq_cooling_get_freq
        (some [⟨0, 0, 300000⟩, ⟨0, 1, 200000⟩, ⟨0, 2, 100000⟩, ⟨0, 3, CPUFREQ_TABLE_END⟩])
        4294967295 0 5 = 4294967295 ∧
    (gpufreq_apply_cooling
        (some [⟨0, 0, 300000⟩, ⟨0, 1, 200000⟩, ⟨0, 2, 100000⟩, ⟨0, 3, CPUFREQ_TABLE_END⟩])
        4294967295 ⟨5, 0, 0, [], 0, [], 0, 0⟩ 5).1 = 0 ∧
    (gpufreq_apply_cooling
        (some [⟨0, 0, 300000⟩, ⟨0, 1, 200000⟩, ⟨0, 2, 100000⟩, ⟨0, 3, CPUFREQ_TABLE_END⟩])
        4294967295 ⟨5, 0, 0, [], 0, [], 0, 0⟩ 5).1 ≠ -EINVAL := by
  refine ⟨rfl, rfl, ?_⟩
  decide

/-- On the table with the single frequency 300000 a device in state 1 that
requests state 0, the one state of the table, is refused: the second loop of
`get_property` skips the first run of such a table. -/
theorem apply_cooling_single_level_refused :
    max_cooling_level [⟨0, 0, 300000⟩, ⟨0, 1, CPUFREQ_TABLE_END⟩] = 0 ∧
    (valid_entries [⟨0, 0, 300000⟩, ⟨0, 1, CPUFREQ_TABLE_END⟩]).head?
      = (valid_entries [⟨0, 0, 300000⟩, ⟨0, 1, CPUFREQ_TABLE_END⟩]).getLast? ∧
    (gpufreq_apply_cooling (some [⟨0, 0, 300000⟩, ⟨0, 1, CPUFREQ_TABLE_END⟩])
        4294967295 ⟨1, 0, 0, [], 0, [], 0, 0⟩ 0).1 = -EINVAL := by
  refine ⟨by decide, by decide, by decide⟩

/-- After the first loop `freq` holds the frequency of the last valid entry. -/
theorem count_freq_last (es : List Nat) :
    ∀ st : CountState, (get_property_count st es).freq = (es.getLast?).getD st.freq := by
  induction es with
  | nil => intro st; rfl
  | cons f rest ih =>
    intro st
    unfold get_property_count
    by_cases h : st.freq = f
    · rw [if_pos h, ih]
      cases rest with
      | nil => simp [h]
      | cons a l =>
        rw [List.getLast?_cons_cons, List.getLast?_eq_getLast (a :: l) (by simp)]
    · rw [if_neg h, ih]
      cases rest with
      | nil => simp
      | cons a l =>
        rw [List.getLast?_cons_cons, List.getLast?_eq_getLast (a :: l) (by simp)]
        rfl

/-- When the first and the last valid entry differ in frequency, the second
loop walks exactly the runs that the first loop counted. -/
theorem distinct_runs_from_last (es : List Nat)
    (hne : ∀ e ∈ es, e ≠ CPUFREQ_ENTRY_INVALID) (hfl : es.head? ≠ es.getLast?) :
    distinct_runs (get_property_count ⟨CPUFREQ_ENTRY_INVALID, -1, 0⟩ es).freq es
      = distinct_runs CPUFREQ_ENTRY_INVALID es := by
  cases es with
  | nil => exact absurd rfl hfl
  | cons e0 rest =>
    have h0 : ¬ (CPUFREQ_ENTRY_INVALID = e0) :=
      fun h => hne e0 (List.mem_cons_self _ _) h.symm
    rw [count_freq_last, List.getLast?_eq_getLast (e0 :: rest) (by simp)]
    rw [List.getLast?_eq_getLast (e0 :: rest) (by simp)] at hfl
    simp only [List.head?_cons, ne_eq, Option.some.injEq, Option.getD_some] at hfl ⊢
    rw [distinct_runs, if_neg (fun h => hfl h.symm), distinct_runs, if_neg h0]

/-- The frequency that `gpufreq_cooling_get_freq` returns for a table with a
valid entry: the run of the second loop at the computed level, if there is
one. -/
theorem gpufreq_cooling_get_freq_eq (tbl : List cpufreq_frequency_table)
    (cfreq_invalid gpu level : Nat) (hvalid : valid_entries tbl ≠ []) :
    gpufreq_cooling_get_freq (some tbl) cfreq_invalid gpu level
      = ((distinct_runs (get_property_count ⟨CPUFREQ_ENTRY_INVALID, -1, 0⟩
            (valid_entries tbl)).freq (valid_entries tbl)).get?
          (if (get_property_count ⟨CPUFREQ_ENTRY_INVALID, -1, 0⟩
                (valid_entries tbl)).descend ≠ 0 then level
           else ulong_sub ((get_property_count ⟨CPUFREQ_ENTRY_INVALID, -1, 0⟩
                (valid_entries tbl)).max_level - 1) level)).getD cfreq_invalid := by
  have hml0 := count_max_level (valid_entries tbl) ⟨CPUFREQ_ENTRY_INVALID, -1, 0⟩
  simp only [Nat.zero_add] at hml0
  rw [distinct_runs_eq_cooling_levels] at hml0
  have hpos : 0 < (cooling_levels tbl).length := by
    rw [List.length_pos]
    unfold cooling_levels
    intro h
    exact hvalid ((List.destutter_eq_nil _).mp h)
  have hml : (get_property_count ⟨CPUFREQ_ENTRY_INVALID, -1, 0⟩
      (valid_entries tbl)).max_level ≠ 0 := by omega
  have hF := get_property_find_eq tbl gpu level 0 .GET_FREQ (by decide) hml
  rw [if_pos rfl, find_freq _ _ _ _ _ _ 0 (Nat.zero_le _), Nat.sub_zero] at hF
  generalize (distinct_runs (get_property_count ⟨CPUFREQ_ENTRY_INVALID, -1, 0⟩
      (valid_entries tbl)).freq (valid_entries tbl)).get?
    (if (get_property_count ⟨CPUFREQ_ENTRY_INVALID, -1, 0⟩
          (valid_entries tbl)).descend ≠ 0 then level
     else ulong_sub ((get_property_count ⟨CPUFREQ_ENTRY_INVALID, -1, 0⟩
          (valid_entries tbl)).max_level - 1) level) = r at hF ⊢
  cases r with
  | none =>
    simp only [gpufreq_cooling_get_freq, hF]
    simp [EINVAL]
  | some v =>
    simp only [gpufreq_cooling_get_freq, hF]
    simp

/-- A state without a frequency in the table: the table is absent, has no
valid entry, or the state is above the maximum cooling level. -/
theorem gpufreq_cooling_get_freq_none (table : Option (List cpufreq_frequency_table))
    (cfreq_invalid gpu level : Nat) (hlevel : level < 2 ^ 64)
    (h : table = none ∨ ∃ tbl, table = some tbl ∧
      (valid_entries tbl = [] ∨ max_cooling_level tbl < level)) :
    gpufreq_cooling_get_freq table cfreq_invalid gpu level = cfreq_invalid := by
  rcases h with h | ⟨tbl, h, hcase⟩
  · subst h
    simp [gpufreq_cooling_get_freq, get_property, EINVAL]
  · subst h
    by_cases hvalid : valid_entries tbl = []
    · have := get_property_no_entry (some tbl) gpu level 0 .GET_FREQ
        (by intro t ht; cases ht; rw [hvalid]; rfl)
      simp [gpufreq_cooling_get_freq, this, EINVAL]
    · have hmax : max_cooling_level tbl < level := by
        rcases hcase with h1 | h1
        · exact absurd h1 hvalid
        · exact h1
      rw [gpufreq_cooling_get_freq_eq tbl cfreq_invalid gpu level hvalid]
      have hml0 := count_max_level (valid_entries tbl) ⟨CPUFREQ_ENTRY_INVALID, -1, 0⟩
      simp only [Nat.zero_add] at hml0
      rw [distinct_runs_eq_cooling_levels] at hml0
      have hle := distinct_runs_length_le_first (valid_entries tbl)
        (valid_entries_ne_invalid tbl)
        (get_property_count ⟨CPUFREQ_ENTRY_INVALID, -1, 0⟩ (valid_entries tbl)).freq
      rw [distinct_runs_eq_cooling_levels] at hle
      unfold max_cooling_level at hmax
      generalize get_property_count ⟨CPUFREQ_ENTRY_INVALID, -1, 0⟩ (valid_entries tbl) = st
        at hml0 hle ⊢
      have hnone : (distinct_runs st.freq (valid_entries tbl)).get?
          (if st.descend ≠ 0 then level else ulong_sub (st.max_level - 1) level) = none := by
        rw [List.get?_eq_none]
        by_cases hd : st.descend ≠ 0
        · rw [if_pos hd]
          omega
        · rw [if_neg hd]
          unfold ulong_sub
          omega
      rw [hnone]
      rfl

/-- A state up to the maximum cooling level has a frequency when the first and
the last valid entry of the table differ in frequency: one of the valid
entries. -/
theorem gpufreq_cooling_get_freq_some (tbl : List cpufreq_frequency_table)
    (cfreq_invalid gpu level : Nat)
    (hfl : (valid_entries tbl).head? ≠ (valid_entries tbl).getLast?)
    (hmax : level ≤ max_cooling_level tbl) :
    gpufreq_cooling_get_freq (some tbl) cfreq_invalid gpu level ∈ valid_entries tbl := by
  have hvalid : valid_entries tbl ≠ [] := by
    intro h
    rw [h] at hfl
    exact hfl rfl
  rw [gpufreq_cooling_get_freq_eq tbl cfreq_invalid gpu level hvalid,
    distinct_runs_from_last _ (valid_entries_ne_invalid tbl) hfl]
  have hml0 := count_max_level (valid_entries tbl) ⟨CPUFREQ_ENTRY_INVALID, -1, 0⟩
  simp only [Nat.zero_add] at hml0
  have hrl := distinct_runs_length_le (valid_entries tbl) CPUFREQ_ENTRY_INVALID
  unfold max_cooling_level at hmax
  rw [← distinct_runs_eq_cooling_levels] at hmax
  have hpos : 0 < (distinct_runs CPUFREQ_ENTRY_INVALID (valid_entries tbl)).length := by
    rw [distinct_runs_eq_cooling_levels, List.length_pos]
    unfold cooling_levels
    intro h
    exact hvalid ((List.destutter_eq_nil _).mp h)
  generalize get_property_count ⟨CPUFREQ_ENTRY_INVALID, -1, 0⟩ (valid_entries tbl) = st
    at hml0 ⊢
  have hlt : (if st.descend ≠ 0 then level else ulong_sub (st.max_level - 1) level)
      < (distinct_runs CPUFREQ_ENTRY_INVALID (valid_entries tbl)).length := by
    by_cases hd : st.descend ≠ 0
    · rw [if_pos hd]
      omega
    · rw [if_neg hd]
      unfold ulong_sub
      omega
  rw [List.get?_eq_get hlt, Option.getD_some]
  exact distinct_runs_mem _ _ _ (List.get_mem _ _ _)

/-- C13 (amended): a request for the state the device is already in returns 0
without consulting the table; a request for another state returns `-EINVAL`
when the state has no corresponding frequency in the table (the table is
absent, has no valid entry, or the state is greater than the maximum cooling
level), and returns 0 when the state is at most the maximum cooling level of a
table whose first and last valid entries differ in frequency and none of whose
frequencies equals `THERMAL_CFREQ_INVALID`. -/
theorem c13_apply_cooling (table : Option (List cpufreq_frequency_table))
    (cfreq_invalid : Nat) (dev : gpufreq_cooling_device) (state : Nat)
    (hstate : state < 2 ^ 64) :
    (dev.gpufreq_state = state →
      (gpufreq_apply_cooling table cfreq_invalid dev state).1 = 0) ∧
    (dev.gpufreq_state ≠ state →
      ((table = none ∨ ∃ tbl, table = some tbl ∧
          (valid_entries tbl = [] ∨ max_cooling_level tbl < state)) →
        (gpufreq_apply_cooling table cfreq_invalid dev state).1 = -EINVAL) ∧
      (∀ tbl, table = some tbl →
        (valid_entries tbl).head? ≠ (valid_entries tbl).getLast? →
        cfreq_invalid ∉ valid_entries tbl →
        state ≤ max_cooling_level tbl →
        (gpufreq_apply_cooling table cfreq_invalid dev state).1 = 0)) := by
  refine ⟨?_, ?_⟩
  · intro h
    simp [gpufreq_apply_cooling, h]
  · intro h
    constructor
    · intro hno
      have hf := gpufreq_cooling_get_freq_none table cfreq_invalid 0 state hstate hno
      simp [gpufreq_apply_cooling, h, hf]
    · intro tbl ht hfl hcfi hmax
      subst ht
      have hmem := gpufreq_cooling_get_freq_some tbl cfreq_invalid 0 state hfl hmax
      have hf : gpufreq_cooling_get_freq (some tbl) cfreq_invalid 0 state ≠ cfreq_invalid := by
        intro he
        rw [he] at hmem
        exact hcfi hmem
      simp [gpufreq_apply_cooling, h, hf]

/-- Witness of `c13_apply_cooling`: the table 300000, 200000, 100000 and a
device in state 0; state 5 is refused, state 2 is applied. -/
theorem c13_apply_cooling_witness :
    (gpufreq_apply_cooling
        (some [⟨0, 0, 300000⟩, ⟨0, 1, 200000⟩, ⟨0, 2, 100000⟩, ⟨0, 3, CPUFREQ_TABLE_END⟩])
        4294967295 ⟨0, 0, 0, [], 0, [], 0, 0⟩ 5).1 = -EINVAL ∧
    (gpufreq_apply_cooling
        (some [⟨0, 0, 300000⟩, ⟨0, 1, 200000⟩, ⟨0, 2, 100000⟩, ⟨0, 3, CPUFREQ_TABLE_END⟩])
        4294967295 ⟨0, 0, 0, [], 0, [], 0, 0⟩ 2).1 = 0 :=
  ⟨((c13_apply_cooling
      (some [⟨0, 0, 300000⟩, ⟨0, 1, 200000⟩, ⟨0, 2, 100000⟩, ⟨0, 3, CPUFREQ_TABLE_END⟩])
      4294967295 ⟨0, 0, 0, [], 0, [], 0, 0⟩ 5 (by decide)).2 (by decide)).1
      (Or.inr ⟨_, rfl, Or.inr (by decide)⟩),
   ((c13_apply_cooling
      (some [⟨0, 0, 300000⟩, ⟨0, 1, 200000⟩, ⟨0, 2, 100000⟩, ⟨0, 3, CPUFREQ_TABLE_END⟩])
      4294967295 ⟨0, 0, 0, [], 0, [], 0, 0⟩ 2 (by decide)).2 (by decide)).2
      _ rfl (by decide) (by decide) (by decide)⟩

/-! ### The two lookups in the dynamic power table -/

theorem gpu_freq_to_power_index_spec (pt : List power_table) (freq : Nat) :
    ∀ n i, i ≤ gpu_freq_to_power_index pt freq n i ∧
      gpu_freq_to_power_index pt freq n i ≤ i + n ∧
      (∀ k, i ≤ k → k < gpu_freq_to_power_index pt freq n i →
        ¬ freq < (power_table_at pt k).frequency) ∧
      (gpu_freq_to_power_index pt freq n i < i + n →
        freq < (power_table_at pt (gpu_freq_to_power_index pt freq n i)).frequency) := by
  intro n
  induction n with
  | zero =>
    intro i
    simp only [gpu_freq_to_power_index]
    exact ⟨Nat.le_refl _, Nat.le_refl _, fun k h1 h2 => by omega, fun h => by omega⟩
  | succ n ih =>
    intro i
    unfold gpu_freq_to_power_index
    by_cases h : freq < (power_table_at pt i).frequency
    · rw [if_pos h]
      exact ⟨Nat.le_refl _, by omega, fun k h1 h2 => by omega, fun _ => h⟩
    · rw [if_neg h]
      obtain ⟨h1, h2, h3, h4⟩ := ih (i + 1)
      refine ⟨by omega, by omega, ?_, fun hlt => h4 (by omega)⟩
      intro k hk1 hk2
      by_cases hki : k = i
      · rw [hki]; exact h
      · exact h3 k (by omega) hk2

theorem gpu_power_to_freq_index_spec (pt : List power_table) (power : Nat) :
    ∀ n i, i ≤ gpu_power_to_freq_index pt power n i ∧
      gpu_power_to_freq_index pt power n i ≤ i + n ∧
      (∀ k, i ≤ k → k < gpu_power_to_freq_index pt power n i →
        ¬ power < (power_table_at pt k).power) ∧
      (gpu_power_to_freq_index pt power n i < i + n →
        power < (power_table_at pt (gpu_power_to_freq_index pt power n i)).power) := by
  intro n
  induction n with
  | zero =>
    intro i
    simp only [gpu_power_to_freq_index]
    exact ⟨Nat.le_refl _, Nat.le_refl _, fun k h1 h2 => by omega, fun h => by omega⟩
  | succ n ih =>
    intro i
    unfold gpu_power_to_freq_index
    by_cases h : power < (power_table_at pt i).power
    · rw [if_pos h]
      exact ⟨Nat.le_refl _, by omega, fun k h1 h2 => by omega, fun _ => h⟩
    · rw [if_neg h]
      obtain ⟨h1, h2, h3, h4⟩ := ih (i + 1)
      refine ⟨by omega, by omega, ?_, fun hlt => h4 (by omega)⟩
      intro k hk1 hk2
      by_cases hki : k = i
      · rw [hki]; exact h
      · exact h3 k (by omega) hk2

/-! ### C15 -/

/-- C15, as stated, fails: with the single entry (100000 KHz, 50 mW) and the
budget 10 mW, `gpu_power_to_freq` returns 100000, whose power is 50. -/
theorem c15_budget_below_lowest_power :
    gpu_power_to_freq ⟨0, 0, 0, [⟨100000, 50⟩], 1, [], 0, 0⟩ 10 = 100000 ∧
    ¬ (gpu_freq_to_power ⟨0, 0, 0, [⟨100000, 50⟩], 1, [], 0, 0⟩
        (gpu_power_to_freq ⟨0, 0, 0, [⟨100000, 50⟩], 1, [], 0, 0⟩ 10) ≤ 10) := by
  decide

/-- C15 (amended): for every dynamic power table with at least one entry whose
entries are strictly ascending in frequency, and every budget `p`: if `p` is
at least the power of the lowest entry, the frequency chosen by
`gpu_power_to_freq` consumes at most `p`; if `p` is below the power of the
lowest entry and the table is ascending in power, `gpu_power_to_freq` returns
the lowest frequency, whose power exceeds `p`. -/
theorem c15_power_within_budget (dev : gpufreq_cooling_device) (p : Nat)
    (hent : 0 < dev.dyn_power_table_entries)
    (hp32 : p < 2 ^ 32)
    (hu32 : ∀ k, k < dev.dyn_power_table_entries →
      (power_table_at dev.dyn_power_table k).frequency < 2 ^ 32)
    (hfreq : ∀ j k, j < k → k < dev.dyn_power_table_entries →
      (power_table_at dev.dyn_power_table j).frequency
        < (power_table_at dev.dyn_power_table k).frequency) :
    ((power_table_at dev.dyn_power_table 0).power ≤ p →
      gpu_freq_to_power dev (gpu_power_to_freq dev p) ≤ p) ∧
    ((∀ j k, j < k → k < dev.dyn_power_table_entries →
        (power_table_at dev.dyn_power_table j).power
          ≤ (power_table_at dev.dyn_power_table k).power) →
      p < (power_table_at dev.dyn_power_table 0).power →
      gpu_power_to_freq dev p = (power_table_at dev.dyn_power_table 0).frequency ∧
      p < gpu_freq_to_power dev (gpu_power_to_freq dev p)) := by
  constructor
  · intro hlow
    unfold gpu_freq_to_power gpu_power_to_freq
    simp only []
    rw [Nat.mod_eq_of_lt hp32]
    obtain ⟨a1, a2, a3, a4⟩ := gpu_power_to_freq_index_spec dev.dyn_power_table p
      (dev.dyn_power_table_entries - 1) 1
    generalize gpu_power_to_freq_index dev.dyn_power_table p
      (dev.dyn_power_table_entries - 1) 1 = a at a1 a2 a3 a4 ⊢
    rw [Nat.mod_eq_of_lt (hu32 (a - 1) (by omega))]
    obtain ⟨b1, b2, b3, b4⟩ := gpu_freq_to_power_index_spec dev.dyn_power_table
      (power_table_at dev.dyn_power_table (a - 1)).frequency
      (dev.dyn_power_table_entries - 1) 1
    generalize gpu_freq_to_power_index dev.dyn_power_table
      (power_table_at dev.dyn_power_table (a - 1)).frequency
      (dev.dyn_power_table_entries - 1) 1 = b at b1 b2 b3 b4 ⊢
    have hba : b = a := by
      rcases Nat.lt_trichotomy b a with h | h | h
      · exfalso
        have hb := b4 (by omega)
        by_cases hb1 : b = a - 1
        · rw [hb1] at hb; exact Nat.lt_irrefl _ hb
        · have := hfreq b (a - 1) (by omega) (by omega)
          omega
      · exact h
      · exfalso
        have := hfreq (a - 1) a (by omega) (by omega)
        exact b3 a a1 h this
    rw [hba]
    by_cases h0 : a - 1 = 0
    · rw [h0]; exact hlow
    · have := a3 (a - 1) (by omega) (by omega)
      omega
  · intro hpow hbelow
    have hf : gpu_power_to_freq dev p = (power_table_at dev.dyn_power_table 0).frequency := by
      unfold gpu_power_to_freq
      simp only []
      rw [Nat.mod_eq_of_lt hp32]
      obtain ⟨a1, a2, a3, _⟩ := gpu_power_to_freq_index_spec dev.dyn_power_table p
        (dev.dyn_power_table_entries - 1) 1
      generalize gpu_power_to_freq_index dev.dyn_power_table p
        (dev.dyn_power_table_entries - 1) 1 = a at a1 a2 a3 ⊢
      have ha : a = 1 := by
        by_contra hne
        have h1 := a3 1 (Nat.le_refl _) (by omega)
        have h2 := hpow 0 1 (by decide) (by omega)
        omega
      rw [ha]
    refine ⟨hf, ?_⟩
    rw [hf]
    unfold gpu_freq_to_power
    simp only []
    rw [Nat.mod_eq_of_lt (hu32 0 hent)]
    obtain ⟨b1, b2, b3, _⟩ := gpu_freq_to_power_index_spec dev.dyn_power_table
      (power_table_at dev.dyn_power_table 0).frequency
      (dev.dyn_power_table_entries - 1) 1
    generalize gpu_freq_to_power_index dev.dyn_power_table
      (power_table_at dev.dyn_power_table 0).frequency
      (dev.dyn_power_table_entries - 1) 1 = b at b1 b2 b3 ⊢
    have hb : b = 1 := by
      by_contra hne
      have h1 := b3 1 (Nat.le_refl _) (by omega)
      have h2 := hfreq 0 1 (by decide) (by omega)
      exact h1 h2
    rw [hb]
    exact hbelow

/-- Witness of `c15_power_within_budget`: the table (300, 960), (400, 1280),
(500, 1600) with the budget 1300, which the chosen frequency keeps, and with
the budget 500, below the lowest power, for which the lowest frequency is
returned. -/
theorem c15_power_within_budget_witness :
    gpu_freq_to_power ⟨0, 0, 0, [⟨300, 960⟩, ⟨400, 1280⟩, ⟨500, 1600⟩], 3, [], 0, 0⟩
      (gpu_power_to_freq ⟨0, 0, 0, [⟨300, 960⟩, ⟨400, 1280⟩, ⟨500, 1600⟩], 3, [], 0, 0⟩ 1300)
      ≤ 1300 ∧
    (gpu_power_to_freq ⟨0, 0, 0, [⟨300, 960⟩, ⟨400, 1280⟩, ⟨500, 1600⟩], 3, [], 0, 0⟩ 500
        = (power_table_at [⟨300, 960⟩, ⟨400, 1280⟩, ⟨500, 1600⟩] 0).frequency ∧
      500 < gpu_freq_to_power ⟨0, 0, 0, [⟨300, 960⟩, ⟨400, 1280⟩, ⟨500, 1600⟩], 3, [], 0, 0⟩
        (gpu_power_to_freq
          ⟨0, 0, 0, [⟨300, 960⟩, ⟨400, 1280⟩, ⟨500, 1600⟩], 3, [], 0, 0⟩ 500)) :=
  ⟨(c15_power_within_budget
      ⟨0, 0, 0, [⟨300, 960⟩, ⟨400, 1280⟩, ⟨500, 1600⟩], 3, [], 0, 0⟩ 1300
      (by decide) (by decide)
      (by
        intro k hk
        have h3 : k < 3 := hk
        interval_cases k <;> decide)
      (by
        intro j k hjk hk
        have h3 : k < 3 := hk
        interval_cases k <;> interval_cases j <;> decide)).1 (by decide),
   (c15_power_within_budget
      ⟨0, 0, 0, [⟨300, 960⟩, ⟨400, 1280⟩, ⟨500, 1600⟩], 3, [], 0, 0⟩ 500
      (by decide) (by decide)
      (by
        intro k hk
        have h3 : k < 3 := hk
        interval_cases k <;> decide)
      (by
        intro j k hjk hk
        have h3 : k < 3 := hk
        interval_cases k <;> interval_cases j <;> decide)).2
      (by
        intro j k hjk hk
        have h3 : k < 3 := hk
        interval_cases k <;> interval_cases j <;> decide)
      (by decide)⟩

/-! ### The loop of `build_dyn_power_table` -/

/-- Slot by slot, the array that the loop leaves: the slots before `i` are
untouched, a later slot holds the entry of its step unless the step is above
the maximum clock. -/
theorem build_dyn_power_table_loop_slots (dvfs : gpu_dvfs) (capacitance num_opps : Nat) :
    ∀ (n i : Nat) (tbl : List power_table) (cnt : Nat), i + n = num_opps →
      tbl.length = num_opps →
      (∀ j, j < i →
        (build_dyn_power_table_loop dvfs capacitance num_opps n i tbl cnt).1[j]? = tbl[j]?) ∧
      (∀ j, i ≤ j → j < num_opps →
        (build_dyn_power_table_loop dvfs capacitance num_opps n i tbl cnt).1[j]?
          = if dvfs.gpu_dvfs_get_clock (num_opps - j - 1) > dvfs.gpu_dvfs_get_max_freq
            then tbl[j]?
            else some (dyn_power_entry dvfs capacitance
              (dvfs.gpu_dvfs_get_clock (num_opps - j - 1)))) := by
  intro n
  induction n with
  | zero =>
    intro i tbl cnt hin _
    exact ⟨fun _ _ => rfl, fun j h1 h2 => by omega⟩
  | succ n ih =>
    intro i tbl cnt hin hlen
    unfold build_dyn_power_table_loop
    simp only []
    by_cases h : dvfs.gpu_dvfs_get_clock (num_opps - i - 1) > dvfs.gpu_dvfs_get_max_freq
    · rw [if_pos h]
      obtain ⟨h1, h2⟩ := ih (i + 1) tbl cnt (by omega) hlen
      refine ⟨fun j hj => h1 j (by omega), ?_⟩
      intro j hj1 hj2
      by_cases hji : j = i
      · rw [hji, h1 i (by omega), if_pos h]
      · exact h2 j (by omega) hj2
    · rw [if_neg h]
      obtain ⟨h1, h2⟩ := ih (i + 1)
        (tbl.set i (dyn_power_entry dvfs capacitance
          (dvfs.gpu_dvfs_get_clock (num_opps - i - 1)))) (cnt + 1) (by omega)
        (by rw [List.length_set]; exact hlen)
      refine ⟨?_, ?_⟩
      · intro j hj
        rw [h1 j (by omega), List.getElem?_set_ne (by omega)]
      · intro j hj1 hj2
        by_cases hji : j = i
        · rw [hji, h1 i (by omega), if_neg h, List.getElem?_set_self (by omega)]
        · rw [h2 j (by omega) hj2, List.getElem?_set_ne (by omega)]

/-- With the steps in descending order of clock, the steps counted by `cnt`
are the first `cnt` slots. -/
theorem build_dyn_power_table_loop_cnt (dvfs : gpu_dvfs) (capacitance num_opps : Nat)
    (hdesc : ∀ a b, a ≤ b → b < num_opps →
      dvfs.gpu_dvfs_get_clock b ≤ dvfs.gpu_dvfs_get_clock a) :
    ∀ (n i : Nat) (tbl : List power_table) (cnt : Nat), i + n = num_opps → cnt ≤ i →
      (∀ j, j < cnt →
        ¬ dvfs.gpu_dvfs_get_clock (num_opps - j - 1) > dvfs.gpu_dvfs_get_max_freq) →
      (cnt < i → ∀ j, cnt ≤ j → j < num_opps →
        dvfs.gpu_dvfs_get_clock (num_opps - j - 1) > dvfs.gpu_dvfs_get_max_freq) →
      (build_dyn_power_table_loop dvfs capacitance num_opps n i tbl cnt).2 ≤ num_opps ∧
      ∀ j, j < (build_dyn_power_table_loop dvfs capacitance num_opps n i tbl cnt).2 →
        ¬ dvfs.gpu_dvfs_get_clock (num_opps - j - 1) > dvfs.gpu_dvfs_get_max_freq := by
  intro n
  induction n with
  | zero =>
    intro i tbl cnt hin hci hacc _
    simp only [build_dyn_power_table_loop]
    exact ⟨by omega, hacc⟩
  | succ n ih =>
    intro i tbl cnt hin hci hacc hrej
    unfold build_dyn_power_table_loop
    simp only []
    by_cases h : dvfs.gpu_dvfs_get_clock (num_opps - i - 1) > dvfs.gpu_dvfs_get_max_freq
    · rw [if_pos h]
      refine ih (i + 1) tbl cnt (by omega) (by omega) hacc ?_
      intro _ j hj1 hj2
      by_cases hc : cnt < i
      · exact hrej hc j hj1 hj2
      · have hle := hdesc (num_opps - j - 1) (num_opps - i - 1) (by omega) (by omega)
        omega
    · rw [if_neg h]
      have hci' : cnt = i := by
        by_contra hne
        exact h (hrej (by omega) i (by omega) (by omega))
      refine ih (i + 1) _ (cnt + 1) (by omega) (by omega) ?_ (fun hlt => by omega)
      intro j hj
      by_cases hji : j = i
      · rw [hji]; exact h
      · exact hacc j (by omega)

/-! ### C17 -/

/-- C17, as stated, fails: with the two DVFS steps 100 and 200 (lowest first)
and the maximum clock 1000, `build_dyn_power_table` returns 0 and stores two
entries, 200 before 100. -/
theorem c17_ascending_steps_not_sorted :
    (build_dyn_power_table ⟨2, fun level => [100, 200].getD level 0, 1000, fun _ => 800000⟩
        true ⟨0, 0, 0, [], 0, [], 0, 0⟩ 5000).1 = 0 ∧
    (build_dyn_power_table ⟨2, fun level => [100, 200].getD level 0, 1000, fun _ => 800000⟩
        true ⟨0, 0, 0, [], 0, [], 0, 0⟩ 5000).2.dyn_power_table_entries = 2 ∧
    (build_dyn_power_table ⟨2, fun level => [100, 200].getD level 0, 1000, fun _ => 800000⟩
        true ⟨0, 0, 0, [], 0, [], 0, 0⟩ 5000).2.dyn_power_table
      = [⟨200, 640⟩, ⟨100, 320⟩] := by
  decide

/-- C17 (amended): for DVFS steps in descending order of clock (step 0 the
highest, as the loop, which reads them from the last to the first, expects)
with 32-bit clocks, and every maximum frequency: when `build_dyn_power_table`
returns 0, the entries 0 .. `dyn_power_table_entries` - 1 of the table it
stores are in ascending order of frequency; it returns `-EINVAL` when there
are no DVFS steps. -/
theorem c17_table_ascending (dvfs : gpu_dvfs) (alloc_ok : Bool)
    (dev : gpufreq_cooling_device) (capacitance : Nat)
    (hdesc : ∀ a b, a ≤ b → b < dvfs.gpu_dvfs_get_step →
      dvfs.gpu_dvfs_get_clock b ≤ dvfs.gpu_dvfs_get_clock a)
    (hu32 : ∀ a, a < dvfs.gpu_dvfs_get_step → dvfs.gpu_dvfs_get_clock a < 2 ^ 32) :
    (dvfs.gpu_dvfs_get_step = 0 →
      (build_dyn_power_table dvfs alloc_ok dev capacitance).1 = -EINVAL) ∧
    ((build_dyn_power_table dvfs alloc_ok dev capacitance).1 = 0 →
      ∀ k, k + 1 < (build_dyn_power_table dvfs alloc_ok dev capacitance).2.dyn_power_table_entries →
        (power_table_at
            (build_dyn_power_table dvfs alloc_ok dev capacitance).2.dyn_power_table k).frequency
          ≤ (power_table_at
            (build_dyn_power_table dvfs alloc_ok dev capacitance).2.dyn_power_table
              (k + 1)).frequency) := by
  constructor
  · intro h
    simp [build_dyn_power_table, h]
  · intro hret k hk
    by_cases hn : dvfs.gpu_dvfs_get_step = 0
    · simp [build_dyn_power_table, hn, EINVAL] at hret
    · cases alloc_ok with
      | false => simp [build_dyn_power_table, hn, ENOMEM] at hret
      | true =>
        have hb : build_dyn_power_table dvfs true dev capacitance
            = (0, { dev with
                dyn_power_table := (build_dyn_power_table_loop dvfs capacitance
                  dvfs.gpu_dvfs_get_step dvfs.gpu_dvfs_get_step 0
                  (List.replicate dvfs.gpu_dvfs_get_step ⟨0, 0⟩) 0).1
                dyn_power_table_entries := (build_dyn_power_table_loop dvfs capacitance
                  dvfs.gpu_dvfs_get_step dvfs.gpu_dvfs_get_step 0
                  (List.replicate dvfs.gpu_dvfs_get_step ⟨0, 0⟩) 0).2 }) := by
          simp [build_dyn_power_table, hn]
        rw [hb] at hk ⊢
        simp only [] at hk ⊢
        obtain ⟨_, hslot⟩ := build_dyn_power_table_loop_slots dvfs capacitance
          dvfs.gpu_dvfs_get_step dvfs.gpu_dvfs_get_step 0
          (List.replicate dvfs.gpu_dvfs_get_step ⟨0, 0⟩) 0 (by omega) (by simp)
        obtain ⟨hcn, hacc⟩ := build_dyn_power_table_loop_cnt dvfs capacitance
          dvfs.gpu_dvfs_get_step hdesc dvfs.gpu_dvfs_get_step 0
          (List.replicate dvfs.gpu_dvfs_get_step ⟨0, 0⟩) 0 (by omega) (by omega)
          (fun j hj => by omega) (fun h => by omega)
        generalize build_dyn_power_table_loop dvfs capacitance dvfs.gpu_dvfs_get_step
          dvfs.gpu_dvfs_get_step 0 (List.replicate dvfs.gpu_dvfs_get_step ⟨0, 0⟩) 0 = r
          at hk hslot hcn hacc ⊢
        have e0 := hslot k (by omega) (by omega)
        have e1 := hslot (k + 1) (by omega) (by omega)
        rw [if_neg (hacc k (by omega))] at e0
        rw [if_neg (hacc (k + 1) (by omega))] at e1
        simp only [power_table_at, e0, e1, Option.getD_some, dyn_power_entry]
        rw [Nat.mod_eq_of_lt (hu32 _ (by omega)), Nat.mod_eq_of_lt (hu32 _ (by omega))]
        exact hdesc _ _ (by omega) (by omega)

/-- Witness of `c17_table_ascending`: the steps 500, 400, 300 with the maximum
clock 400; the two stored entries are 300 and 400. -/
theorem c17_table_ascending_witness :
    (power_table_at
        (build_dyn_power_table
          ⟨3, fun level => [500, 400, 300].getD level 0, 400, fun _ => 800000⟩
          true ⟨0, 0, 0, [], 0, [], 0, 0⟩ 5000).2.dyn_power_table 0).frequency
      ≤ (power_table_at
        (build_dyn_power_table
          ⟨3, fun level => [500, 400, 300].getD level 0, 400, fun _ => 800000⟩
          true ⟨0, 0, 0, [], 0, [], 0, 0⟩ 5000).2.dyn_power_table (0 + 1)).frequency :=
  (c17_table_ascending
    ⟨3, fun level => [500, 400, 300].getD level 0, 400, fun _ => 800000⟩
    true ⟨0, 0, 0, [], 0, [], 0, 0⟩ 5000
    (by
      intro a b hab hb
      have h3 : b < 3 := hb
      interval_cases b <;> interval_cases a <;> decide)
    (by
      intro a ha
      have h3 : a < 3 := ha
      interval_cases a <;> decide)).2 (by decide) 0 (by decide)

/-! ### C18 -/

/-- C18, as stated, fails: with the capacitance 4294967295, a step of clock
1000000 and the voltage 1000000 (1000 mV) the product exceeds `2 ^ 64`; the
stored power is 2437768011, not floor(4294967295 * 1000000 * 1000 * 1000 /
1000000000) = 4294967295000, which would not fit the 32-bit field either. -/
theorem c18_product_overflows :
    (power_table_at
        (build_dyn_power_table ⟨1, fun _ => 1000000, 1000000, fun _ => 1000000⟩
          true ⟨0, 0, 0, [], 0, [], 0, 0⟩ 4294967295).2.dyn_power_table 0).power
      = 2437768011 ∧
    4294967295 * 1000000 * (1000000 / 1000) * (1000000 / 1000) / 1000000000 = 4294967295000 ∧
    ¬ (4294967295 * 1000000 * (1000000 / 1000) * (1000000 / 1000) < 2 ^ 64) := by
  decide

/-- C18 (amended): for every 32-bit capacitance and every DVFS step `i` that
`build_dyn_power_table` stores (its clock `freq` is not above the maximum), with
`v_mv = floor(voltage / 1000)` below `2 ^ 32`: whenever the product
`capacitance * freq * v_mv * v_mv` is below `2 ^ 64` and its quotient by
1000000000 is below `2 ^ 32`, the stored power is exactly that quotient. -/
theorem c18_stored_power (dvfs : gpu_dvfs) (dev : gpufreq_cooling_device)
    (capacitance i : Nat)
    (hcap : capacitance < 2 ^ 32)
    (hi : i < dvfs.gpu_dvfs_get_step)
    (hmax : dvfs.gpu_dvfs_get_clock (dvfs.gpu_dvfs_get_step - i - 1)
      ≤ dvfs.gpu_dvfs_get_max_freq)
    (hv : dvfs.gpu_dvfs_get_voltage
      (dvfs.gpu_dvfs_get_clock (dvfs.gpu_dvfs_get_step - i - 1)) / 1000 < 2 ^ 32)
    (hprod : capacitance * dvfs.gpu_dvfs_get_clock (dvfs.gpu_dvfs_get_step - i - 1)
      * (dvfs.gpu_dvfs_get_voltage
          (dvfs.gpu_dvfs_get_clock (dvfs.gpu_dvfs_get_step - i - 1)) / 1000)
      * (dvfs.gpu_dvfs_get_voltage
          (dvfs.gpu_dvfs_get_clock (dvfs.gpu_dvfs_get_step - i - 1)) / 1000) < 2 ^ 64)
    (hquot : capacitance * dvfs.gpu_dvfs_get_clock (dvfs.gpu_dvfs_get_step - i - 1)
      * (dvfs.gpu_dvfs_get_voltage
          (dvfs.gpu_dvfs_get_clock (dvfs.gpu_dvfs_get_step - i - 1)) / 1000)
      * (dvfs.gpu_dvfs_get_voltage
          (dvfs.gpu_dvfs_get_clock (dvfs.gpu_dvfs_get_step - i - 1)) / 1000)
      / 1000000000 < 2 ^ 32) :
    (power_table_at (build_dyn_power_table dvfs true dev capacitance).2.dyn_power_table
        i).power
      = capacitance * dvfs.gpu_dvfs_get_clock (dvfs.gpu_dvfs_get_step - i - 1)
        * (dvfs.gpu_dvfs_get_voltage
            (dvfs.gpu_dvfs_get_clock (dvfs.gpu_dvfs_get_step - i - 1)) / 1000)
        * (dvfs.gpu_dvfs_get_voltage
            (dvfs.gpu_dvfs_get_clock (dvfs.gpu_dvfs_get_step - i - 1)) / 1000)
        / 1000000000 := by
  have hn : dvfs.gpu_dvfs_get_step ≠ 0 := by omega
  have hb : (build_dyn_power_table dvfs true dev capacitance).2.dyn_power_table
      = (build_dyn_power_table_loop dvfs capacitance dvfs.gpu_dvfs_get_step
          dvfs.gpu_dvfs_get_step 0 (List.replicate dvfs.gpu_dvfs_get_step ⟨0, 0⟩) 0).1 := by
    simp [build_dyn_power_table, hn]
  rw [hb]
  obtain ⟨_, hslot⟩ := build_dyn_power_table_loop_slots dvfs capacitance
    dvfs.gpu_dvfs_get_step dvfs.gpu_dvfs_get_step 0
    (List.replicate dvfs.gpu_dvfs_get_step ⟨0, 0⟩) 0 (by omega) (by simp)
  have e := hslot i (Nat.zero_le _) hi
  rw [if_neg (by omega)] at e
  simp only [power_table_at, e, Option.getD_some, dyn_power_entry]
  rw [Nat.mod_eq_of_lt hcap, Nat.mod_eq_of_lt hv, Nat.mod_eq_of_lt hprod,
    Nat.mod_eq_of_lt hquot]

/-- Witness of `c18_stored_power`: capacitance 5000, one step of clock 500 at
800000 (800 mV); the stored power is 1600. -/
theorem c18_stored_power_witness :
    (power_table_at
        (build_dyn_power_table ⟨1, fun _ => 500, 1000, fun _ => 800000⟩
          true ⟨0, 0, 0, [], 0, [], 0, 0⟩ 5000).2.dyn_power_table 0).power
      = 5000 * 500 * (800000 / 1000) * (800000 / 1000) / 1000000000 :=
  c18_stored_power ⟨1, fun _ => 500, 1000, fun _ => 800000⟩ ⟨0, 0, 0, [], 0, [], 0, 0⟩
    5000 0 (by decide) (by decide) (by decide) (by decide) (by decide) (by decide)

/-! ### C16 -/

set_option maxRecDepth 8000 in
/-- C16 fails on the table 300000, 300000, 200000 (maximum cooling level 1):
state 2 is greater than the maximum level and `gpufreq_cooling_get_freq` has no
frequency for it, yet `gpufreq_state2power` reads `gpu_freq_table[2]`, finds
200 MHz, returns 0 and writes `*power` (7 before, 673 after). At the end
marker of the table 300000, 200000, 100000 (state 3) the frequency read is
4294967 MHz, the test `!freq` does not fire either, and with a DVFS interface
that reports a voltage for every clock the function returns 0 as well. -/
theorem c16_state_beyond_max_level_accepted :
    (max_cooling_level
        [⟨0, 0, 300000⟩, ⟨0, 1, 300000⟩, ⟨0, 2, 200000⟩, ⟨0, 3, CPUFREQ_TABLE_END⟩] = 1 ∧
      gpufreq_cooling_get_freq
        (some [⟨0, 0, 300000⟩, ⟨0, 1, 300000⟩, ⟨0, 2, 200000⟩, ⟨0, 3, CPUFREQ_TABLE_END⟩])
        4294967295 0 2 = 4294967295 ∧
      gpufreq_state2power
        ⟨2, fun level => [300, 200].getD level 0, 300,
          fun clock => if clock = 300 ∨ clock = 200 then 800000 else 0⟩
        [⟨0, 0, 300000⟩, ⟨0, 1, 300000⟩, ⟨0, 2, 200000⟩, ⟨0, 3, CPUFREQ_TABLE_END⟩]
        ⟨0, 0, 0, [⟨200, 640⟩, ⟨300, 960⟩], 2, [0, 25, 800, 33], 1, 1⟩ 40000 2 7
        = some (0, 673)) ∧
    (max_cooling_level
        [⟨0, 0, 300000⟩, ⟨0, 1, 200000⟩, ⟨0, 2, 100000⟩, ⟨0, 3, CPUFREQ_TABLE_END⟩] = 2 ∧
      gpufreq_state2power
        ⟨2, fun level => [300, 200].getD level 0, 300, fun _ => 800000⟩
        [⟨0, 0, 300000⟩, ⟨0, 1, 200000⟩, ⟨0, 2, 100000⟩, ⟨0, 3, CPUFREQ_TABLE_END⟩]
        ⟨0, 0, 0, [⟨200, 640⟩, ⟨300, 960⟩], 2, [0, 25, 800, 33], 1, 1⟩ 40000 3 7
        = some (0, 993)) := by
  refine ⟨⟨by decide, by decide, by decide⟩, by decide, by decide⟩

end GpuCooling

namespace FimcIsPreproc

/-! ### C19 -/

/-- C19: for every supported SoC configuration, every scenario and channel,
and whatever the clock enable, disable and set-rate operations return, each of
the wrappers `exynos_fimc_is_preproc_iclk_cfg`, `_iclk_on`, `_iclk_off`,
`_mclk_on` and `_mclk_off` returns 0: the result of the SoC function and of
the clock calls under it is dropped. -/
theorem c19_wrappers_return_zero {W : Type} (soc : SocConfig) (ops : ClockOps W)
    (dev scenario channel : Nat) (w : W) :
    (exynos_fimc_is_preproc_iclk_cfg soc ops dev scenario channel w).1 = 0 ∧
    (exynos_fimc_is_preproc_iclk_on soc ops dev scenario channel w).1 = 0 ∧
    (exynos_fimc_is_preproc_iclk_off soc ops dev scenario channel w).1 = 0 ∧
    (exynos_fimc_is_preproc_mclk_on soc ops dev scenario channel w).1 = 0 ∧
    (exynos_fimc_is_preproc_mclk_off soc ops dev scenario channel w).1 = 0 := by
  refine ⟨?_, ?_, ?_, ?_, ?_⟩ <;> cases soc <;> rfl

end FimcIsPreproc
